import Mathlib

/-!
Verification development for the sustainable-eco-report chat application.

The repository serves building-sensor analytics: a keyword router maps a
free-text chat message to one of three backend analysis tools
(`src/backend/mcp_server.py`), a second service exposes further analyses
(`src/mcp-service/src/server.py`), and `src/frontend/flask_app_simple.py`
renders tool output as an HTML report.

Shallow embedding conventions:
* pandas cells are `Option ℚ` (`none` is a missing value / NaN);
  column aggregates that can be NaN are `Option ℚ` as well;
* a tool's textual output channel is `ToolOut`: either the JSON dump of a
  structured value (`PyVal`) or a plain textual message;
* `datetime.now()` is passed explicitly as a `now : String` argument;
* Python exceptions are `Except` values.
Long fixed HTML blocks of the frontend are transcribed abbreviated (their
exact text plays no role in any property); every interpolation point and
every branch of the source is kept.
-/

namespace EcoReport

/-! ## Python-style helpers -/

/-- Python `needle in hay` on strings: substring containment. -/
def pyIn (needle hay : String) : Bool :=
  decide (needle.data <:+: hay.data)

/-- `any(kw in msg for kw in kws)`. -/
def containsAny (msg : String) (kws : List String) : Bool :=
  kws.any (fun kw => pyIn kw msg)

/-- Python `s.lower()`.  The repository's data holds only ASCII and Arabic
text, on which Python's full-Unicode lowercasing is exactly ASCII
lowercasing. -/
def pyLower (s : String) : String :=
  String.mk (s.data.map (fun c => if 'A' ≤ c ∧ c ≤ 'Z' then Char.ofNat (c.toNat + 32) else c))

/-- Round-half-to-even to an integer, the rounding Python's `round` uses. -/
def roundHalfEven (x : ℚ) : ℤ :=
  if x - ⌊x⌋ < 1/2 then ⌊x⌋
  else if x - ⌊x⌋ > 1/2 then ⌊x⌋ + 1
  else if ⌊x⌋ % 2 = 0 then ⌊x⌋ else ⌊x⌋ + 1

/-- Python `round(x, n)`: round to `n` decimal places, half to even. -/
def pyRound (n : ℕ) (x : ℚ) : ℚ :=
  (roundHalfEven (x * 10 ^ n) : ℚ) / 10 ^ n

/-! ## The keyword router (`src/frontend/flask_app_simple.py`, `chat`)

The `/chat` handler lowercases and strips the incoming message, then
checks a help/list keyword group, then five tool keyword groups in a
fixed `if`/`elif` order.  All functions below take the message after
`.strip().lower()`. -/

def help_keywords : List String :=
  ["list", "buildings", "available", "help", "hello", "hi",
   "مساعدة", "مرحبا", "معلومات", "ساعدني"]

def energy_keywords : List String :=
  ["energy", "stats", "consumption", "طاقة", "إحصائيات", "استهلاك", "احصل"]

def sustainability_keywords : List String :=
  ["sustainability", "metrics", "استدامة", "مقاييس", "بيئة"]

def carbon_keywords : List String :=
  ["carbon", "footprint", "eco", "impact", "كربون", "بصمة", "احسب"]

def water_keywords : List String :=
  ["water", "ماء", "مياه"]

def environmental_keywords : List String :=
  ["temperature", "humidity", "co2", "air", "حرارة", "رطوبة", "هواء"]

/-- A routed tool call: the tool a message is dispatched to, with the
`metric_type` parameter for the eco-impact tool. -/
inductive ToolCall : Type where
  | energyStats : ToolCall
  | sustainabilityMetrics : ToolCall
  | ecoImpact : String → ToolCall
deriving DecidableEq, Repr

/-- The router of `chat` (lines 570-582): the `if`/`elif` chain over the
five keyword groups, in source order. -/
def route (m : String) : Option ToolCall :=
  if containsAny m energy_keywords then some ToolCall.energyStats
  else if containsAny m sustainability_keywords then some ToolCall.sustainabilityMetrics
  else if containsAny m carbon_keywords then some (ToolCall.ecoImpact "carbon_footprint")
  else if containsAny m water_keywords then some (ToolCall.ecoImpact "water_usage")
  else if containsAny m environmental_keywords then some ToolCall.energyStats
  else none

/-- The spec's reading of the router: an ordered list of keyword groups,
first group containing a substring of the message wins. -/
def firstMatch (m : String) : List (List String × ToolCall) → Option ToolCall
  | [] => none
  | (kws, t) :: rest => if containsAny m kws then some t else firstMatch m rest

/-- The five keyword groups in the priority order the spec prescribes:
energy/stats, sustainability, carbon, water, generic environmental. -/
def routerGroups : List (List String × ToolCall) :=
  [(energy_keywords, ToolCall.energyStats),
   (sustainability_keywords, ToolCall.sustainabilityMetrics),
   (carbon_keywords, ToolCall.ecoImpact "carbon_footprint"),
   (water_keywords, ToolCall.ecoImpact "water_usage"),
   (environmental_keywords, ToolCall.energyStats)]

/-! ## Structured values (`json.dumps` payloads)

`PyVal` embeds the Python values the tools serialize: numbers, NaN,
`None`, booleans, strings, lists and (insertion-ordered) dicts.
`sqrtNum v` stands for the float `round(sqrt(v), 2)` produced for a
standard deviation; only its presence, never its value, is used
downstream, so the radicand is kept symbolically. -/

inductive PyVal : Type where
  | num : ℚ → PyVal
  | sqrtNum : ℚ → PyVal
  | nan : PyVal
  | null : PyVal
  | bool : Bool → PyVal
  | str : String → PyVal
  | list : List PyVal → PyVal
  | dict : List (String × PyVal) → PyVal

/-- A tool's textual output: the JSON dump of a structured value, or a
plain textual message (an error or "no data" sentence). -/
inductive ToolOut : Type where
  | json : PyVal → ToolOut
  | text : String → ToolOut

/-- pandas/numpy scalar that may be NaN, as a `PyVal`. -/
def numOrNan : Option ℚ → PyVal
  | some q => PyVal.num q
  | none => PyVal.nan

/-- Python `d.get(k)` on a dict (`None` on anything else). -/
def PyVal.get : PyVal → String → Option PyVal
  | PyVal.dict xs, k => xs.lookup k
  | _, _ => none

/-- Field of a JSON tool output. -/
def ToolOut.get1 : ToolOut → String → Option PyVal
  | ToolOut.json v, k => v.get k
  | ToolOut.text _, _ => none

/-- Nested field of a JSON tool output. -/
def ToolOut.get2 (t : ToolOut) (k1 k2 : String) : Option PyVal :=
  (t.get1 k1).bind (fun v => v.get k2)

/-- Doubly nested field of a JSON tool output. -/
def ToolOut.get3 (t : ToolOut) (k1 k2 k3 : String) : Option PyVal :=
  ((t.get1 k1).bind (fun v => v.get k2)).bind (fun v => v.get k3)

mutual

/-- Whether `eval` of the value's `json.dumps` text succeeds: JSON spells
NaN, `None` and booleans as `NaN`, `null`, `true`/`false`, none of which
is a Python literal (`eval` raises `NameError` on them). -/
def PyVal.evalSafe : PyVal → Bool
  | PyVal.num _ => true
  | PyVal.sqrtNum _ => true
  | PyVal.nan => false
  | PyVal.null => false
  | PyVal.bool _ => false
  | PyVal.str _ => true
  | PyVal.list xs => evalSafeList xs
  | PyVal.dict xs => evalSafeDict xs

def evalSafeList : List PyVal → Bool
  | [] => true
  | x :: xs => x.evalSafe && evalSafeList xs

def evalSafeDict : List (String × PyVal) → Bool
  | [] => true
  | x :: xs => x.2.evalSafe && evalSafeDict xs

end

/-- `eval(result)` in the `/chat` handler: parses the dump of a dict back
into the value, raising on a plain textual message (`SyntaxError`) and on
a dump holding `NaN`/`null`/`true`/`false` (`NameError`). -/
def evalParse : ToolOut → Except Unit PyVal
  | ToolOut.json v => if v.evalSafe then Except.ok v else Except.error ()
  | ToolOut.text _ => Except.error ()

/-- `json.loads(result)`: accepts every dump (`NaN` included), raises on
the plain textual messages, which are not JSON. -/
def jsonLoads : ToolOut → Except Unit PyVal
  | ToolOut.json v => Except.ok v
  | ToolOut.text _ => Except.error ()

/-- `.get(k, default)` for a numeric field. -/
def pyNumD (v : Option PyVal) (d : ℚ) : ℚ :=
  match v with
  | some (PyVal.num q) => q
  | _ => d

/-- `.get(k, [])` for a list field. -/
def pyListD (v : Option PyVal) : List PyVal :=
  match v with
  | some (PyVal.list xs) => xs
  | _ => []

/-- Python truthiness of a structured value. -/
def PyVal.truthy : PyVal → Bool
  | PyVal.num q => decide (q ≠ 0)
  | PyVal.sqrtNum q => decide (q ≠ 0)
  | PyVal.nan => true
  | PyVal.null => false
  | PyVal.bool b => b
  | PyVal.str s => decide (s ≠ "")
  | PyVal.list xs => !xs.isEmpty
  | PyVal.dict xs => !xs.isEmpty

/-- Truthiness of an optional lookup (`None`, hence false, when absent). -/
def truthyD (v : Option PyVal) : Bool :=
  match v with
  | some x => PyVal.truthy x
  | none => false

/-! ## The dataset (`dataset/building_413_data.csv`)

One row per timestamp; the columns `create_dataset.py` writes, in order:
`datetime, co2, humidity, temperature, light, pir, building_id`.
A cell is `Option ℚ`, `none` for a missing value (NaN). -/

structure Row : Type where
  datetime : String
  co2 : Option ℚ
  humidity : Option ℚ
  temperature : Option ℚ
  light : Option ℚ
  pir : Option ℚ
  building_id : Option ℚ

/-- A pandas frame over the dataset's schema (a date-filtered view is a
sublist of rows). -/
abbrev DataFrame := List Row

def df_columns : List String :=
  ["datetime", "co2", "humidity", "temperature", "light", "pir", "building_id"]

/-! ## pandas column aggregation -/

/-- The present cells of a column (`dropna`). -/
def present (c : List (Option ℚ)) : List ℚ := c.filterMap id

/-- `Series.mean()`: skips NaN; NaN (`none`) when nothing is present. -/
def colMean (c : List (Option ℚ)) : Option ℚ :=
  match present c with
  | [] => none
  | xs => some (xs.sum / xs.length)

/-- `Series.max()`: skips NaN; NaN when nothing is present. -/
def colMax (c : List (Option ℚ)) : Option ℚ :=
  match present c with
  | [] => none
  | x :: xs => some (xs.foldl max x)

/-- `Series.min()`: skips NaN; NaN when nothing is present. -/
def colMin (c : List (Option ℚ)) : Option ℚ :=
  match present c with
  | [] => none
  | x :: xs => some (xs.foldl min x)

/-- `Series.sum()`: skips NaN, `0` for an all-missing column. -/
def colSum (c : List (Option ℚ)) : ℚ := (present c).sum

/-- `Series.notna().sum()`. -/
def colCount (c : List (Option ℚ)) : ℕ := (present c).length

/-- Lexicographic comparison of code-point sequences: Python `<` on
strings (and pandas ordering of the `datetime` strings). -/
def charListLt : List Char → List Char → Bool
  | [], [] => false
  | [], _ :: _ => true
  | _ :: _, [] => false
  | a :: as, b :: bs => if a < b then true else if b < a then false else charListLt as bs

/-- Python `a < b` on strings. -/
def pyStrLt (a b : String) : Bool := charListLt a.data b.data

/-- Python `a <= b` on strings. -/
def pyStrLe (a b : String) : Bool := !(pyStrLt b a)

/-- Minimum of a string column (the `datetime` column). -/
def strColMin : List String → Option String
  | [] => none
  | s :: rest => some (rest.foldl (fun a b => if pyStrLt b a then b else a) s)

/-- Maximum of a string column. -/
def strColMax : List String → Option String
  | [] => none
  | s :: rest => some (rest.foldl (fun a b => if pyStrLt a b then b else a) s)

/-- `str(x)` of a possibly-NaN value whose present form is a string. -/
def pyStrOfOpt : Option String → String
  | some s => s
  | none => "nan"

/-- NaN-aware `x > c` (any comparison with NaN is `False` in Python). -/
def optGt (x : Option ℚ) (c : ℚ) : Bool :=
  match x with
  | some q => decide (c < q)
  | none => false

/-- NaN-aware `x < c`. -/
def optLt (x : Option ℚ) (c : ℚ) : Bool :=
  match x with
  | some q => decide (q < c)
  | none => false

/-- NaN-aware chained `lo <= x <= hi`. -/
def optBetween (lo : ℚ) (x : Option ℚ) (hi : ℚ) : Bool :=
  match x with
  | some q => decide (lo ≤ q ∧ q ≤ hi)
  | none => false

/-- Python `int(q)`: truncation toward zero. -/
def pyInt (q : ℚ) : ℤ :=
  if 0 ≤ q then ⌊q⌋ else ⌈q⌉

/-- `f"{x:.1f}"`: one decimal place, `"nan"` for NaN. -/
def fmtFixed1 (x : Option ℚ) : String :=
  match x with
  | none => "nan"
  | some q =>
    let n := roundHalfEven (q * 10)
    (if n < 0 then "-" else "") ++ toString (n.natAbs / 10) ++ "." ++ toString (n.natAbs % 10)

/-- `f"{x:.2f}"`: two decimal places, `"nan"` for NaN. -/
def fmtFixed2 (x : Option ℚ) : String :=
  match x with
  | none => "nan"
  | some q =>
    let n := roundHalfEven (q * 100)
    (if n < 0 then "-" else "") ++ toString (n.natAbs / 100) ++ "." ++
      toString (n.natAbs % 100 / 10) ++ toString (n.natAbs % 10)

/-- Digit value of an ASCII digit character. -/
def digitVal (c : Char) : ℕ := c.toNat - 48

/-- The number spelled by a run of ASCII digits. -/
def natOfChars (cs : List Char) : ℕ := cs.foldl (fun a c => 10 * a + digitVal c) 0

/-! ## The backend tools (`src/backend/mcp_server.py`)

Each tool's body is wrapped in `try/except Exception` returning an error
string; the bodies are total over this dataset's schema, so the except
branch is unreachable in the model and each tool is a plain `ToolOut`.
The `'timestamp'` date-filter branch of `get_building_energy_stats` is
vacuous for this dataset (its time column is named `datetime`). -/

/-- The column-name translation table of `get_building_energy_stats`. -/
def arabic_columns : List (String × String) :=
  [("datetime", "التاريخ والوقت"),
   ("co2", "ثاني أكسيد الكربون"),
   ("humidity", "الرطوبة"),
   ("temperature", "درجة الحرارة"),
   ("light", "الإضاءة"),
   ("pir", "كاشف الحركة"),
   ("building_id", "رقم المبنى")]

/-- `arabic_columns.get(col, col)`. -/
def arabicName (c : String) : String := (arabic_columns.lookup c).getD c

/-- `df.select_dtypes(include=['float64', 'int64'])`: the numeric columns
of the frame, in schema order. -/
def numericColumns (df : DataFrame) : List (String × List (Option ℚ)) :=
  [("co2", df.map Row.co2),
   ("humidity", df.map Row.humidity),
   ("temperature", df.map Row.temperature),
   ("light", df.map Row.light),
   ("pir", df.map Row.pir),
   ("building_id", df.map Row.building_id)]

/-- `get_building_energy_stats` (async MCP tool, lines 24-91): per-column
mean/max/min rounded to two decimals under Arabic labels, record count,
monitored columns, and the covered `datetime` span. -/
def get_building_energy_stats (df : DataFrame) : ToolOut :=
  let mean_dict := (numericColumns df).map
    (fun p => (arabicName p.1, numOrNan ((colMean p.2).map (pyRound 2))))
  let max_dict := (numericColumns df).map
    (fun p => (arabicName p.1, numOrNan ((colMax p.2).map (pyRound 2))))
  let min_dict := (numericColumns df).map
    (fun p => (arabicName p.1, numOrNan ((colMin p.2).map (pyRound 2))))
  ToolOut.json (PyVal.dict
    [("إجمالي_القراءات", PyVal.num df.length),
     ("المعايير_المراقبة", PyVal.list (df_columns.map (fun c => PyVal.str (arabicName c)))),
     ("إحصائيات_استهلاك_الطاقة", PyVal.dict
        [("المتوسط", PyVal.dict mean_dict),
         ("الحد_الأقصى", PyVal.dict max_dict),
         ("الحد_الأدنى", PyVal.dict min_dict)]),
     ("فترة_البيانات", PyVal.dict
        [("من", PyVal.str (pyStrOfOpt (strColMin (df.map Row.datetime)))),
         ("إلى", PyVal.str (pyStrOfOpt (strColMax (df.map Row.datetime))))])])

/-- `[col for col in df.columns if 'energy' in col.lower() or 'power' in
col.lower()]` — empty for this dataset's schema, so the tool's fallback
branch over the environmental columns always runs. -/
def energy_columns : List String :=
  df_columns.filter (fun c => pyIn "energy" (pyLower c) || pyIn "power" (pyLower c))

/-- The threshold-based recommendation list of
`get_sustainability_metrics` (fallback branch), with the nominal
"conditions optimal" message when no threshold fires. -/
def sustainabilityRecs (df : DataFrame) : List String :=
  let co2_avg := colMean (df.map Row.co2)
  let temp_avg := colMean (df.map Row.temperature)
  let humidity_avg := colMean (df.map Row.humidity)
  let recs : List String :=
    (if optGt co2_avg 1000 then ["مستويات ثاني أكسيد الكربون مرتفعة. حسّن أنظمة التهوية."]
     else if optGt co2_avg 600 then ["راقب مستويات ثاني أكسيد الكربون خلال ساعات الذروة."]
     else [])
    ++ (if optGt temp_avg 25 then ["درجة الحرارة أعلى من النطاق الأمثل. انظر في تحسين نظام التبريد."]
        else if optLt temp_avg 22 then ["درجة الحرارة منخفضة. انظر في تحسين نظام التدفئة."]
        else [])
    ++ (if optGt humidity_avg 60 then ["مستويات الرطوبة مرتفعة. انظر في إزالة الرطوبة."]
        else if optLt humidity_avg 40 then ["مستويات الرطوبة منخفضة. انظر في زيادة الترطيب."]
        else [])
  if recs = [] then ["الظروف البيئية ضمن النطاقات المثلى."] else recs

/-- `get_sustainability_metrics` (lines 93-163), fallback branch: averages
of the environmental columns formatted to one decimal, and threshold-based
recommendations with a nominal fallback message. -/
def get_sustainability_metrics (df : DataFrame) : ToolOut :=
  let co2_avg := colMean (df.map Row.co2)
  let temp_avg := colMean (df.map Row.temperature)
  let humidity_avg := colMean (df.map Row.humidity)
  let light_avg := colMean (df.map Row.light)
  -- numpy float division: `pir.sum() / 0` is NaN (warning, not an exception)
  let pir_activity : Option ℚ :=
    if df.length = 0 then none else some (colSum (df.map Row.pir) / df.length * 100)
  let recs := sustainabilityRecs df
  ToolOut.json (PyVal.dict
    [("إجمالي_استهلاك_الطاقة", PyVal.str "لا يُقاس مباشرة"),
     ("متوسط_استهلاك_الطاقة", PyVal.str "مُقدّر من البيانات البيئية"),
     ("مستويات_ثاني_أكسيد_الكربون", PyVal.str (fmtFixed1 co2_avg ++ " جزء في المليون")),
     ("متوسط_درجة_الحرارة", PyVal.str (fmtFixed1 temp_avg ++ "°م")),
     ("متوسط_الرطوبة", PyVal.str (fmtFixed1 humidity_avg ++ "٪")),
     ("متوسط_الإضاءة", PyVal.str (fmtFixed1 light_avg ++ " لوكس")),
     ("نشاط_الحركة", PyVal.str (fmtFixed1 pir_activity ++ "٪")),
     ("عدد_القراءات", PyVal.num df.length),
     ("التوصيات", PyVal.list (recs.map PyVal.str))])

/-- The carbon-footprint recommendation list of `analyze_eco_impact`:
every branch of the chained conditional appends at least one message. -/
def ecoCarbonRecs (avg_co2 : Option ℚ) : List String :=
  if optGt avg_co2 1000 then
    ["تنفيذ تحسينات فورية للتهوية",
     "النظر في مصادر الطاقة المتجددة",
     "مراقبة أنماط الإشغال لتحسين نظام التدفئة والتهوية وتكييف الهواء"]
  else if optGt avg_co2 600 then
    ["مراقبة مستويات ثاني أكسيد الكربون خلال ساعات الذروة",
     "تحسين جداول التهوية"]
  else ["الحفاظ على المعايير البيئية الحالية"]

/-- The water-usage recommendation list of `analyze_eco_impact`: every
branch appends at least one message. -/
def ecoWaterRecs (avg_humidity : Option ℚ) : List String :=
  if optGt avg_humidity 60 then ["رطوبة عالية مكتشفة. تحقق من هدر المياه أو ضعف التهوية."]
  else if optLt avg_humidity 40 then ["رطوبة منخفضة. انظر في استخدام المياه للترطيب."]
  else ["مستويات الرطوبة مثالية."]

/-- `analyze_eco_impact` (lines 165-269): carbon-footprint estimate from
CO2 (`avg * len * 0.001` kg), or water-usage estimate from humidity and
motion (`(avg_humidity / 50) * total_motion_events * 10` liters); any
other `metric_type` yields the generic completion message.  The `'co2'`,
`'humidity'` and `'pir'` column-presence checks hold for this schema. -/
def analyze_eco_impact (df : DataFrame) (metric_type : String) : ToolOut :=
  if metric_type = "carbon_footprint" then
    let avg_co2 := colMean (df.map Row.co2)
    let max_co2 := colMax (df.map Row.co2)
    let min_co2 := colMin (df.map Row.co2)
    let co2_impact := avg_co2.map (fun a => a * (df.length : ℚ) * (1/1000))
    let rating :=
      if optLt avg_co2 600 then "ممتاز"
      else if optLt avg_co2 1000 then "يحتاج تحسين"
      else "ضعيف"
    let rating_desc :=
      if optLt avg_co2 600 then "جيد"
      else if optLt avg_co2 1000 then "مقبول"
      else "يحتاج تحسين فوري"
    let recs := ecoCarbonRecs avg_co2
    ToolOut.json (PyVal.dict
      [("نوع_المقياس", PyVal.str "البصمة الكربونية"),
       ("انبعاثات_CO2_المقدرة_كجم", numOrNan (co2_impact.map (pyRound 2))),
       ("متوسط_CO2_اليومي_جزء_بالمليون", numOrNan (avg_co2.map (pyRound 1))),
       ("الحد_الأقصى_CO2", numOrNan (max_co2.map (pyRound 1))),
       ("الحد_الأدنى_CO2", numOrNan (min_co2.map (pyRound 1))),
       ("تصنيف_الاستدامة", PyVal.str rating),
       ("وصف_التصنيف", PyVal.str rating_desc),
       ("عدد_القراءات", PyVal.num df.length),
       ("التوصيات", PyVal.list (recs.map PyVal.str))])
  else if metric_type = "water_usage" then
    let avg_humidity := colMean (df.map Row.humidity)
    let total_motion_events : ℚ := colSum (df.map Row.pir)
    let estimated_water_usage :=
      avg_humidity.map (fun h => h / 50 * total_motion_events * 10)
    let efficiency :=
      if optBetween 40 avg_humidity 60 then "جيد" else "يحتاج تحسين"
    let efficiency_desc :=
      if optBetween 40 avg_humidity 60 then "ضمن النطاق الأمثل" else "خارج النطاق الأمثل"
    let recs := ecoWaterRecs avg_humidity
    ToolOut.json (PyVal.dict
      [("نوع_المقياس", PyVal.str "استخدام المياه"),
       ("الاستخدام_اليومي_المقدر_باللتر", numOrNan (estimated_water_usage.map (pyRound 2))),
       ("كفاءة_الرطوبة", PyVal.str efficiency),
       ("وصف_الكفاءة", PyVal.str efficiency_desc),
       ("متوسط_الرطوبة", PyVal.str (fmtFixed1 avg_humidity ++ "٪")),
       ("عامل_الإشغال", PyVal.num (pyInt total_motion_events)),
       ("عدد_القراءات", PyVal.num df.length),
       ("التوصيات", PyVal.list (recs.map PyVal.str))])
  else ToolOut.text ("تم إكمال التحليل لـ " ++ metric_type ++ " بالبيانات المتاحة.")

/-! ## The mcp-service tools (`src/mcp-service/src/server.py`)

These tools have no `try/except` wrapper.  `generate_sustainability_report`
re-parses the other tools' textual output with `json.loads`, which raises
on the plain "No … available" messages, so it is `Except`-valued; the
other four tools are total over this schema. -/

namespace Svc

/-- `datetime.isoformat()` of one of the dataset's
`"YYYY-MM-DD HH:MM:SS"` strings. -/
def isoformat (s : String) : String :=
  String.mk (s.data.map (fun c => if c = ' ' then 'T' else c))

/-- Date filtering `df[df['datetime'] >= start]` / `<= end` with the
empty string meaning "no bound".  On this dataset's zero-padded
`"YYYY-MM-DD HH:MM:SS"` strings, lexicographic order agrees with
chronological order. -/
def dateFilter (df : DataFrame) (start_date end_date : String) : DataFrame :=
  let df1 := if start_date ≠ "" then df.filter (fun r => pyStrLe start_date r.datetime) else df
  if end_date ≠ "" then df1.filter (fun r => pyStrLe r.datetime end_date) else df1

/-- Mean of a nonempty list of values (`Series.mean` after `dropna`). -/
def listMean (xs : List ℚ) : ℚ := xs.sum / xs.length

/-- Max of a list of values (`0` unreachable: callers guard nonemptiness). -/
def listMaxD : List ℚ → ℚ
  | [] => 0
  | x :: xs => xs.foldl max x

/-- Min of a list of values (`0` unreachable: callers guard nonemptiness). -/
def listMinD : List ℚ → ℚ
  | [] => 0
  | x :: xs => xs.foldl min x

/-- Insertion step of an ascending stable sort. -/
def insertRat (x : ℚ) : List ℚ → List ℚ
  | [] => [x]
  | y :: ys => if y ≤ x then y :: insertRat x ys else x :: y :: ys

/-- Ascending sort of the values (for the median). -/
def sortRats (xs : List ℚ) : List ℚ := xs.foldr insertRat []

/-- `Series.median()` of a nonempty list: middle element, or the average
of the two middle elements. -/
def pyMedian (xs : List ℚ) : ℚ :=
  let s := sortRats xs
  let n := xs.length
  if n % 2 = 1 then s.getD (n / 2) 0
  else (s.getD (n / 2 - 1) 0 + s.getD (n / 2) 0) / 2

/-- `round(Series.std(), 2)` (sample standard deviation, `ddof=1`): NaN
for fewer than two values, else the rounded square root of the sample
variance (kept as `sqrtNum` of the variance, see `PyVal`). -/
def stdVal (xs : List ℚ) : PyVal :=
  if 2 ≤ xs.length then
    PyVal.sqrtNum ((xs.map (fun x => (x - listMean xs) ^ 2)).sum / ((xs.length : ℚ) - 1))
  else PyVal.nan

/-- Count of readings in the `<= 400` ppm band. -/
def bandExcellent (xs : List ℚ) : ℕ := (xs.filter (fun x => decide (x ≤ 400))).length

/-- Count of readings in the `(400, 600]` ppm band. -/
def bandGood (xs : List ℚ) : ℕ := (xs.filter (fun x => decide (400 < x ∧ x ≤ 600))).length

/-- Count of readings in the `(600, 1000]` ppm band. -/
def bandAcceptable (xs : List ℚ) : ℕ := (xs.filter (fun x => decide (600 < x ∧ x ≤ 1000))).length

/-- Count of readings in the `(1000, 1500]` ppm band. -/
def bandPoor (xs : List ℚ) : ℕ := (xs.filter (fun x => decide (1000 < x ∧ x ≤ 1500))).length

/-- Count of readings in the `> 1500` ppm band. -/
def bandVeryPoor (xs : List ℚ) : ℕ := (xs.filter (fun x => decide (1500 < x))).length

/-- The five band counts of `analyze_co2_levels`, in source order. -/
def co2BandCounts (xs : List ℚ) : List ℕ :=
  [bandExcellent xs, bandGood xs, bandAcceptable xs, bandPoor xs, bandVeryPoor xs]

/-- `round(count/len(co2_data)*100, 1)`. -/
def bandPct (xs : List ℚ) (c : ℕ) : ℚ := pyRound 1 ((c : ℚ) / xs.length * 100)

/-- The five reported band percentages. -/
def co2BandPercents (xs : List ℚ) : List ℚ := (co2BandCounts xs).map (bandPct xs)

/-- `max(0, 100 - (co2_data.mean() - 400) / 10)`. -/
def co2EfficiencyScore (m : ℚ) : ℚ := max 0 (100 - (m - 400) / 10)

/-- The chained conditional computing `overall_rating` from the mean. -/
def co2OverallRating (m : ℚ) : String :=
  if m ≤ 400 then "excellent"
  else if m ≤ 600 then "good"
  else if m ≤ 1000 then "acceptable"
  else if m ≤ 1500 then "poor"
  else "very_poor"

/-- `analyze_co2_levels` (lines 91-154): band distribution, statistics
and sustainability insights over the date-filtered CO2 readings. -/
def analyze_co2_levels (building_data : DataFrame) (start_date end_date : String) : ToolOut :=
  if building_data.isEmpty then ToolOut.text "No data available"
  else
    let df := dateFilter building_data start_date end_date
    let co2_data := present (df.map Row.co2)
    if co2_data.isEmpty then ToolOut.text "No CO2 data available for the specified period"
    else
      let m := listMean co2_data
      ToolOut.json (PyVal.dict
        [("period", PyVal.dict
           [("start", PyVal.str (isoformat (pyStrOfOpt (strColMin (df.map Row.datetime))))),
            ("end", PyVal.str (isoformat (pyStrOfOpt (strColMax (df.map Row.datetime))))),
            ("total_readings", PyVal.num co2_data.length)]),
         ("co2_statistics", PyVal.dict
           [("average_ppm", PyVal.num (pyRound 2 m)),
            ("median_ppm", PyVal.num (pyRound 2 (pyMedian co2_data))),
            ("min_ppm", PyVal.num (pyRound 2 (listMinD co2_data))),
            ("max_ppm", PyVal.num (pyRound 2 (listMaxD co2_data))),
            ("std_ppm", stdVal co2_data)]),
         ("air_quality_distribution", PyVal.dict
           [("excellent_0_400ppm", PyVal.dict
              [("count", PyVal.num (bandExcellent co2_data)),
               ("percentage", PyVal.num (bandPct co2_data (bandExcellent co2_data)))]),
            ("good_400_600ppm", PyVal.dict
              [("count", PyVal.num (bandGood co2_data)),
               ("percentage", PyVal.num (bandPct co2_data (bandGood co2_data)))]),
            ("acceptable_600_1000ppm", PyVal.dict
              [("count", PyVal.num (bandAcceptable co2_data)),
               ("percentage", PyVal.num (bandPct co2_data (bandAcceptable co2_data)))]),
            ("poor_1000_1500ppm", PyVal.dict
              [("count", PyVal.num (bandPoor co2_data)),
               ("percentage", PyVal.num (bandPct co2_data (bandPoor co2_data)))]),
            ("very_poor_1500plus_ppm", PyVal.dict
              [("count", PyVal.num (bandVeryPoor co2_data)),
               ("percentage", PyVal.num (bandPct co2_data (bandVeryPoor co2_data)))])]),
         ("sustainability_insights", PyVal.dict
           [("overall_rating", PyVal.str (co2OverallRating m)),
            ("ventilation_needed", PyVal.bool (decide (1000 < m))),
            ("energy_efficiency_score", PyVal.num (co2EfficiencyScore m))])])

/-- `datetime.dt.hour` of a `"YYYY-MM-DD HH:MM:SS"` string. -/
def hourOf (s : String) : ℕ := natOfChars ((s.data.drop 11).take 2)

/-- Year of the timestamp. -/
def yearOf (s : String) : ℕ := natOfChars (s.data.take 4)

/-- Month of the timestamp. -/
def monthOf (s : String) : ℕ := natOfChars ((s.data.drop 5).take 2)

/-- Day-of-month of the timestamp. -/
def dayOf (s : String) : ℕ := natOfChars ((s.data.drop 8).take 2)

/-- `datetime.dt.day_name()`: the weekday name, by Zeller's congruence. -/
def dayName (s : String) : String :=
  let m0 := monthOf s
  let m := if m0 < 3 then m0 + 12 else m0
  let y := if m0 < 3 then yearOf s - 1 else yearOf s
  let h := (dayOf s + 13 * (m + 1) / 5 + y % 100 + y % 100 / 4 + y / 100 / 4 + 5 * (y / 100)) % 7
  ["Saturday", "Sunday", "Monday", "Tuesday", "Wednesday", "Thursday", "Friday"].getD h ""

/-- `groupby('hour')['pir'].sum()`: pandas sorts the integer group keys
ascending. -/
def hourlyActivity (rows : List Row) : List (ℕ × ℚ) :=
  ((List.range 24).filter (fun h => rows.any (fun r => hourOf r.datetime = h))).map
    (fun h => (h, colSum ((rows.filter (fun r => hourOf r.datetime = h)).map Row.pir)))

/-- The seven weekday names in pandas group order (string keys sort
lexicographically). -/
def weekdayNamesSorted : List String :=
  ["Friday", "Monday", "Saturday", "Sunday", "Thursday", "Tuesday", "Wednesday"]

/-- `groupby('day_of_week')['pir'].sum()`. -/
def dailyActivity (rows : List Row) : List (String × ℚ) :=
  (weekdayNamesSorted.filter (fun d => rows.any (fun r => dayName r.datetime = d))).map
    (fun d => (d, colSum ((rows.filter (fun r => dayName r.datetime = d)).map Row.pir)))

/-- `max(d, key=d.get)`: the first key attaining the maximal value, in
iteration order. -/
def argmaxFirst {α : Type} (xs : List (α × ℚ)) : Option α :=
  (xs.foldl
    (fun best p =>
      match best with
      | none => some p
      | some b => if b.2 < p.2 then some p else some b)
    none).map Prod.fst

/-- `analyze_occupancy_patterns` (lines 156-204): hourly and daily motion
totals, peak hour/day and high/low usage hours. -/
def analyze_occupancy_patterns (building_data : DataFrame) : ToolOut :=
  if building_data.isEmpty then ToolOut.text "No data available"
  else
    let pir_data := building_data.filter (fun r => r.pir.isSome)
    if pir_data.isEmpty then ToolOut.text "No motion sensor data available"
    else
      let hourly := hourlyActivity pir_data
      let daily := dailyActivity pir_data
      let meanHourly := (hourly.map Prod.snd).sum / hourly.length
      ToolOut.json (PyVal.dict
        [("occupancy_summary", PyVal.dict
           [("total_motion_events", PyVal.num (pyInt (colSum (pir_data.map Row.pir)))),
            ("monitoring_period", PyVal.dict
              [("start", PyVal.str (isoformat (pyStrOfOpt (strColMin (pir_data.map Row.datetime))))),
               ("end", PyVal.str (isoformat (pyStrOfOpt (strColMax (pir_data.map Row.datetime)))))]),
            ("peak_activity_hour", PyVal.num ((argmaxFirst hourly).getD 0)),
            ("peak_activity_day", PyVal.str ((argmaxFirst daily).getD ""))]),
         ("hourly_pattern", PyVal.dict (hourly.map (fun p => (toString p.1, PyVal.num p.2)))),
         ("daily_pattern", PyVal.dict (daily.map (fun p => (p.1, PyVal.num p.2)))),
         ("energy_optimization_insights", PyVal.dict
           [("high_usage_hours",
             PyVal.list ((hourly.filter (fun p => meanHourly < p.2)).map (fun p => PyVal.num p.1))),
            ("low_usage_hours",
             PyVal.list ((hourly.filter (fun p => p.2 < meanHourly * (1/2))).map (fun p => PyVal.num p.1))),
            ("recommendations", PyVal.list
              [PyVal.str "Reduce HVAC during low occupancy hours",
               PyVal.str "Optimize lighting schedules based on motion patterns",
               PyVal.str "Consider automated systems for peak usage times"])])])

/-- The rows holding both a temperature and a humidity reading. -/
def combinedRows (df : DataFrame) : DataFrame :=
  df.filter (fun r => r.temperature.isSome && r.humidity.isSome)

/-- Whether a combined row lies in both optimal bands
(`20-24` °C and `40-60` %). -/
def bothOptimal (r : Row) : Bool :=
  match r.temperature, r.humidity with
  | some t, some h => decide (20 ≤ t ∧ t ≤ 24 ∧ 40 ≤ h ∧ h ≤ 60)
  | _, _ => false

/-- `comfort_count` over the combined rows. -/
def comfortCount (df : DataFrame) : ℕ := ((combinedRows df).filter bothOptimal).length

/-- `comfort_count/len(combined_data)*100`, the joint percentage (not
rounded where the score uses it). -/
def jointPercentage (df : DataFrame) : ℚ :=
  (comfortCount df : ℚ) / (combinedRows df).length * 100

/-- `min(100, comfort_count/len(combined_data)*100 + 20)`. -/
def comfortScore (df : DataFrame) : ℚ := min 100 (jointPercentage df + 20)

/-- `get_environmental_comfort_analysis` (lines 206-279): temperature and
humidity band statistics and the joint comfort insights. -/
def get_environmental_comfort_analysis (building_data : DataFrame) : ToolOut :=
  if building_data.isEmpty then ToolOut.text "No data available"
  else
    let temp_data := present (building_data.map Row.temperature)
    let humidity_data := present (building_data.map Row.humidity)
    if temp_data.isEmpty && humidity_data.isEmpty then
      ToolOut.text "No temperature or humidity data available"
    else
      let tempAnalysis : PyVal :=
        if temp_data.isEmpty then PyVal.dict []
        else
          let optimal_temp := (temp_data.filter (fun t => decide (20 ≤ t ∧ t ≤ 24))).length
          PyVal.dict
            [("average_celsius", PyVal.num (pyRound 2 (listMean temp_data))),
             ("min_celsius", PyVal.num (pyRound 2 (listMinD temp_data))),
             ("max_celsius", PyVal.num (pyRound 2 (listMaxD temp_data))),
             ("optimal_range_20_24c", PyVal.dict
               [("count", PyVal.num optimal_temp),
                ("percentage", PyVal.num (pyRound 1 ((optimal_temp : ℚ) / temp_data.length * 100)))]),
             ("too_cold_below_20c", PyVal.num ((temp_data.filter (fun t => decide (t < 20))).length)),
             ("too_warm_above_24c", PyVal.num ((temp_data.filter (fun t => decide (24 < t))).length))]
      let humidityAnalysis : PyVal :=
        if humidity_data.isEmpty then PyVal.dict []
        else
          let optimal_humidity := (humidity_data.filter (fun h => decide (40 ≤ h ∧ h ≤ 60))).length
          PyVal.dict
            [("average_percent", PyVal.num (pyRound 2 (listMean humidity_data))),
             ("min_percent", PyVal.num (pyRound 2 (listMinD humidity_data))),
             ("max_percent", PyVal.num (pyRound 2 (listMaxD humidity_data))),
             ("optimal_range_40_60", PyVal.dict
               [("count", PyVal.num optimal_humidity),
                ("percentage", PyVal.num (pyRound 1 ((optimal_humidity : ℚ) / humidity_data.length * 100)))]),
             ("too_dry_below_40", PyVal.num ((humidity_data.filter (fun h => decide (h < 40))).length)),
             ("too_humid_above_60", PyVal.num ((humidity_data.filter (fun h => decide (60 < h))).length))]
      let comfortInsights : PyVal :=
        if !temp_data.isEmpty && !humidity_data.isEmpty then
          if !(combinedRows building_data).isEmpty then
            PyVal.dict
              [("optimal_comfort_conditions", PyVal.dict
                 [("count", PyVal.num (comfortCount building_data)),
                  ("percentage", PyVal.num (pyRound 1 (jointPercentage building_data)))]),
               ("energy_efficiency_score", PyVal.num (comfortScore building_data)),
               ("recommendations", PyVal.list
                 [PyVal.str "Maintain temperature between 20-24°C for optimal comfort",
                  PyVal.str "Keep humidity between 40-60% to prevent mold and dryness",
                  PyVal.str "Use smart thermostats to optimize energy usage"])]
          else PyVal.dict []
        else PyVal.dict []
      ToolOut.json (PyVal.dict
        [("temperature_analysis", tempAnalysis),
         ("humidity_analysis", humidityAnalysis),
         ("comfort_insights", comfortInsights)])

/-- Per-sensor block of `get_data_summary` (`None` markers when the
column has no present value). -/
def sensorStats (c : List (Option ℚ)) : PyVal :=
  PyVal.dict
    [("available_records", PyVal.num (colCount c)),
     ("avg_value", match colMean c with
       | some m => PyVal.num (pyRound 2 m)
       | none => PyVal.null),
     ("min_value", match colMin c with
       | some m => PyVal.num (pyRound 2 m)
       | none => PyVal.null),
     ("max_value", match colMax c with
       | some m => PyVal.num (pyRound 2 m)
       | none => PyVal.null)]

/-- `get_data_summary` (lines 42-89). -/
def get_data_summary (building_data : DataFrame) : ToolOut :=
  if building_data.isEmpty then ToolOut.text "No data available"
  else
    ToolOut.json (PyVal.dict
      [("total_records", PyVal.num building_data.length),
       ("date_range", PyVal.dict
         [("start", PyVal.str (isoformat (pyStrOfOpt (strColMin (building_data.map Row.datetime))))),
          ("end", PyVal.str (isoformat (pyStrOfOpt (strColMax (building_data.map Row.datetime)))))]),
       ("building_id", match building_data with
         | [] => PyVal.nan
         | r :: _ => numOrNan r.building_id),
       ("sensors", PyVal.dict
         [("co2", sensorStats (building_data.map Row.co2)),
          ("temperature", sensorStats (building_data.map Row.temperature)),
          ("humidity", sensorStats (building_data.map Row.humidity)),
          ("light", sensorStats (building_data.map Row.light)),
          ("pir_motion", PyVal.dict
            [("available_records", PyVal.num (colCount (building_data.map Row.pir))),
             ("total_motion_events",
              if (present (building_data.map Row.pir)).isEmpty then PyVal.num 0
              else PyVal.num (pyInt (colSum (building_data.map Row.pir))))])])])

/-- `generate_sustainability_report` (lines 281-354): merges the four
analyses.  The sub-results are re-parsed with `json.loads` with no
`try/except`, so a plain-text sub-result makes the whole tool raise
(`Except.error`). -/
def generate_sustainability_report (building_data : DataFrame) (now : String)
    (report_type : String) : Except Unit ToolOut :=
  if building_data.isEmpty then
    Except.ok (ToolOut.text "No data available for report generation")
  else do
    let co2_analysis ← jsonLoads (analyze_co2_levels building_data "" "")
    let occupancy_analysis ← jsonLoads (analyze_occupancy_patterns building_data)
    let comfort_analysis ← jsonLoads (get_environmental_comfort_analysis building_data)
    let data_summary ← jsonLoads (get_data_summary building_data)
    let scores : List ℚ :=
      (match co2_analysis.get "sustainability_insights" with
       | some si => [pyNumD (si.get "energy_efficiency_score") 50]
       | none => [])
      ++ (match comfort_analysis.get "comfort_insights" with
          | some ci => [pyNumD (ci.get "energy_efficiency_score") 50]
          | none => [])
    let overall_score : ℚ :=
      if scores.isEmpty then 50 else pyRound 1 (listMean scores)
    let findings : List PyVal :=
      (if 1000 < pyNumD ((co2_analysis.get "co2_statistics").bind (fun v => v.get "average_ppm")) 0
       then [PyVal.str "CO2 levels indicate poor ventilation - immediate action needed"] else [])
      ++ (if pyNumD (((comfort_analysis.get "comfort_insights").bind
             (fun v => v.get "optimal_comfort_conditions")).bind (fun v => v.get "percentage")) 0 < 50
          then [PyVal.str "Environmental conditions are suboptimal for comfort and efficiency"] else [])
    let recommendations : List PyVal :=
      (if truthyD ((co2_analysis.get "sustainability_insights").bind
           (fun v => v.get "ventilation_needed"))
       then [PyVal.str "Improve ventilation system to reduce CO2 levels"] else [])
      ++ (if truthyD (occupancy_analysis.get "energy_optimization_insights")
          then pyListD ((occupancy_analysis.get "energy_optimization_insights").bind
                 (fun v => v.get "recommendations"))
          else [])
      ++ (if truthyD ((comfort_analysis.get "comfort_insights").bind
            (fun v => v.get "recommendations"))
          then pyListD ((comfort_analysis.get "comfort_insights").bind
                 (fun v => v.get "recommendations"))
          else [])
    Except.ok (ToolOut.json (PyVal.dict
      [("report_metadata", PyVal.dict
         [("generated_at", PyVal.str now),
          ("report_type", PyVal.str report_type),
          ("building_id", (data_summary.get "building_id").getD PyVal.null),
          ("analysis_period", (data_summary.get "date_range").getD PyVal.null)]),
       ("executive_summary", PyVal.dict
         [("total_records_analyzed", (data_summary.get "total_records").getD PyVal.null),
          ("overall_sustainability_score", PyVal.num overall_score),
          ("key_findings", PyVal.list findings),
          ("priority_recommendations", PyVal.list (recommendations.take 3))]),
       ("detailed_analysis", PyVal.dict
         [("air_quality", co2_analysis),
          ("occupancy_patterns", occupancy_analysis),
          ("environmental_comfort", comfort_analysis)]),
       ("sustainability_metrics", PyVal.dict []),
       ("recommendations", PyVal.list recommendations)]))

end Svc

/-! ## The report formatters (`src/frontend/flask_app_simple.py`)

Each formatter is a function of the parsed tool result and of
`datetime.now().strftime('%Y-%m-%d %H:%M:%S')`, passed here as `now`.
The fixed HTML blocks are transcribed abbreviated (content shortened,
every block kept); every interpolation point and branch of the source is
kept.  In the source, the "overview" block of `generate_energy_report` is
a plain (non-f) triple-quoted string, so its placeholders appear verbatim
in the output; they are written with escaped braces below. -/

/-- `str(x)` as the f-strings of the formatters use it.  The tools only
interpolate integers and strings here; the remaining constructors are
rendered with placeholders (`str` of a float or container is never
reached by this repository's tool outputs). -/
def PyVal.pyStr : PyVal → String
  | PyVal.num q => if q.den = 1 then toString q.num else toString q.num ++ "/" ++ toString q.den
  | PyVal.sqrtNum _ => "<float>"
  | PyVal.nan => "nan"
  | PyVal.null => "None"
  | PyVal.bool b => if b then "True" else "False"
  | PyVal.str s => s
  | PyVal.list _ => "<list>"
  | PyVal.dict _ => "<dict>"

/-- `f"{v:.2f}"` of a dict value (a number or NaN in every reachable
case; anything else would raise in the source and never occurs here). -/
def fmt2OfVal : PyVal → String
  | PyVal.num q => fmtFixed2 (some q)
  | _ => "nan"

/-- The keys of a dict value. -/
def dictKeys : PyVal → List String
  | PyVal.dict xs => xs.map Prod.fst
  | _ => []

/-- `key in d`. -/
def dictHasKey (d : PyVal) (k : String) : Bool := (dictKeys d).contains k

/-- Insertion step of `sorted` over strings. -/
def insertStr (x : String) : List String → List String
  | [] => [x]
  | y :: ys => if pyStrLt y x then y :: insertStr x ys else x :: y :: ys

/-- Python `sorted` of a set of strings (code-point order). -/
def sortStrings (xs : List String) : List String := xs.foldr insertStr []

/-- The constant head of the energy report, up to the interpolated
generation timestamp. -/
def energyHeader1 : String :=
  "<div dir=rtl><div>⚡ مبنى ٤١٣ - تقرير الطاقة | تحليل الأداء البيئي واستهلاك الطاقة</div><div>📋 تفاصيل التقرير | تاريخ الإنشاء: <strong>"

/-- Between the timestamp and the interpolated record count. -/
def energyHeader2 : String :=
  "</strong><br>رقم المبنى: <strong>٤١٣</strong><br>عدد نقاط البيانات: <strong>"

/-- The executive-summary and data-overview blocks: a plain string in the
source, so its two placeholders appear verbatim in the output. -/
def energyOverviewBlock : String :=
  "</div></div><div>📊 الملخص التنفيذي: يقدم هذا التقرير تحليلاً شاملاً لأنماط الأداء البيئي واستهلاك الطاقة في المبنى ٤١٣.</div><div>🔍 نظرة عامة على جمع البيانات | إجمالي القراءات: \x7btotal_records\x7d قراءة | المعايير المراقبة: \x7b', '.join(str(c) for c in columns)\x7d</div>"

/-- The header row of the energy statistics table. -/
def energyTableHeader : String :=
  "<div><h3>📈 إحصائيات استهلاك الطاقة</h3><table><tr><th>المعيار</th><th>المتوسط</th><th>الحد الأدنى</th><th>الذروة</th></tr>"

/-- The constant recommendations and status footer. -/
def energyFooter : String :=
  "<div>💡 التوصيات: المراقبة المستمرة | تحسين الأداء | الامتثال</div><div>✅ حالة التقرير: مكتمل | الجودة: عالية | الثقة: ٩٥٪</div></div>"

/-- Unit and icon chosen from the (lowercased) statistic key. -/
def unitAndIcon (key : String) : String × String :=
  let kl := pyLower key
  if pyIn "co2" kl || pyIn "كربون" kl then ("جزء/مليون", "💨")
  else if pyIn "temp" kl || pyIn "حرارة" kl then ("°م", "🌡️")
  else if pyIn "hum" kl || pyIn "رطوبة" kl then ("٪", "💧")
  else if pyIn "light" kl || pyIn "إضاءة" kl then ("لوكس", "💡")
  else if pyIn "pir" kl || pyIn "حركة" kl then ("", "👥")
  else ("", "📊")

/-- One row of the energy statistics table (mean, min, peak). -/
def energyTableRow (mean_dict max_dict min_dict : PyVal) (key : String) : String :=
  let ui := unitAndIcon key
  let mean_val :=
    if dictHasKey mean_dict key then fmt2OfVal ((mean_dict.get key).getD (PyVal.num 0)) ++ " " ++ ui.1
    else "غير متوفر"
  let min_val :=
    if dictHasKey min_dict key then fmt2OfVal ((min_dict.get key).getD (PyVal.num 0)) ++ " " ++ ui.1
    else "غير متوفر"
  let max_val :=
    if dictHasKey max_dict key then fmt2OfVal ((max_dict.get key).getD (PyVal.num 0)) ++ " " ++ ui.1
    else "غير متوفر"
  "<tr><td>" ++ ui.2 ++ " " ++ key ++ "</td><td>" ++ mean_val ++ "</td><td>" ++ min_val ++
    "</td><td>" ++ max_val ++ "</td></tr>"

/-- `generate_energy_report` (lines 19-145): the Arabic HTML energy
report.  Handles both the Arabic keys the backend emits and the English
alternates. -/
def generate_energy_report (data : PyVal) (now : String) : String :=
  let total_records := (data.get "إجمالي_القراءات").getD ((data.get "total_records").getD (PyVal.str "غير متوفر"))
  let date_period := (data.get "فترة_البيانات").getD (PyVal.dict [])
  let report := energyHeader1 ++ now ++ energyHeader2 ++ total_records.pyStr ++ " قراءة</strong>"
  let report :=
    if date_period.truthy then
      report ++ "<br>فترة البيانات: <strong>" ++ ((date_period.get "من").getD (PyVal.str "")).pyStr ++
        " إلى " ++ ((date_period.get "إلى").getD (PyVal.str "")).pyStr ++ "</strong>"
    else report
  let report := report ++ energyOverviewBlock
  let energy := (data.get "إحصائيات_استهلاك_الطاقة").getD ((data.get "energy_consumption").getD (PyVal.dict []))
  let report :=
    if energy.truthy then
      let mean_dict := (energy.get "المتوسط").getD ((energy.get "mean").getD (PyVal.dict []))
      let max_dict := (energy.get "الحد_الأقصى").getD ((energy.get "max").getD (PyVal.dict []))
      let min_dict := (energy.get "الحد_الأدنى").getD ((energy.get "min").getD (PyVal.dict []))
      let all_keys := sortStrings ((dictKeys mean_dict ++ dictKeys min_dict ++ dictKeys max_dict).eraseDups)
      report ++ energyTableHeader ++
        String.join (all_keys.map (energyTableRow mean_dict max_dict min_dict)) ++ "</table></div>"
    else report
  report ++ energyFooter

/-- The part of the rendered energy report after the embedded generation
timestamp: a function of the tool result alone.  (The spec-side factored
form of `generate_energy_report`, used to state that two renders differ
only in the timestamp.) -/
def energyReportTail (data : PyVal) : String :=
  let total_records := (data.get "إجمالي_القراءات").getD ((data.get "total_records").getD (PyVal.str "غير متوفر"))
  let date_period := (data.get "فترة_البيانات").getD (PyVal.dict [])
  let tail := energyHeader2 ++ total_records.pyStr ++ " قراءة</strong>"
  let tail :=
    if date_period.truthy then
      tail ++ "<br>فترة البيانات: <strong>" ++ ((date_period.get "من").getD (PyVal.str "")).pyStr ++
        " إلى " ++ ((date_period.get "إلى").getD (PyVal.str "")).pyStr ++ "</strong>"
    else tail
  let tail := tail ++ energyOverviewBlock
  let energy := (data.get "إحصائيات_استهلاك_الطاقة").getD ((data.get "energy_consumption").getD (PyVal.dict []))
  let tail :=
    if energy.truthy then
      let mean_dict := (energy.get "المتوسط").getD ((energy.get "mean").getD (PyVal.dict []))
      let max_dict := (energy.get "الحد_الأقصى").getD ((energy.get "max").getD (PyVal.dict []))
      let min_dict := (energy.get "الحد_الأدنى").getD ((energy.get "min").getD (PyVal.dict []))
      let all_keys := sortStrings ((dictKeys mean_dict ++ dictKeys min_dict ++ dictKeys max_dict).eraseDups)
      tail ++ energyTableHeader ++
        String.join (all_keys.map (energyTableRow mean_dict max_dict min_dict)) ++ "</table></div>"
    else tail
  tail ++ energyFooter

/-- `float(s)` for the strings this pipeline formats (a fixed-point
number or `"nan"`); `Except.error` is `ValueError`. -/
def pyFloatCore (cs : List Char) : Option ℚ :=
  let ip := cs.takeWhile (fun c => decide ('0' ≤ c ∧ c ≤ '9'))
  match cs.dropWhile (fun c => decide ('0' ≤ c ∧ c ≤ '9')) with
  | [] => if ip.isEmpty then none else some (natOfChars ip)
  | '.' :: fp =>
    if fp.all (fun c => decide ('0' ≤ c ∧ c ≤ '9')) && !(ip.isEmpty && fp.isEmpty) then
      some ((natOfChars ip : ℚ) + (natOfChars fp : ℚ) / 10 ^ fp.length)
    else none
  | _ => none

/-- `float(s)`: `Except.ok none` is the float NaN. -/
def pyFloat (s : String) : Except Unit (Option ℚ) :=
  if s = "nan" then Except.ok none
  else
    match s.data with
    | '-' :: cs =>
      match pyFloatCore cs with
      | some q => Except.ok (some (-q))
      | none => Except.error ()
    | cs =>
      match pyFloatCore cs with
      | some q => Except.ok (some q)
      | none => Except.error ()

/-- `str.split()[0]`: `none` models the `IndexError` on an all-blank
string (the dataset's strings blank only at spaces). -/
def firstToken? (s : String) : Option String :=
  match (s.data.dropWhile (fun c => c = ' ')).takeWhile (fun c => !(c = ' ')) with
  | [] => none
  | cs => some (String.mk cs)

/-- The rating/grade/colours block of the frontend sustainability
report. -/
structure RatingInfo : Type where
  rating : String
  grade : String
  color : String
  bg_color : String

/-- The `try/except` rating classification of
`generate_sustainability_report` (frontend, lines 159-192): parses the
leading number of the CO2-level string; any exception falls back to the
"good" rating, and NaN compares false everywhere, giving the last
branch. -/
def sustainabilityRating (co2_level : PyVal) : RatingInfo :=
  let s := co2_level.pyStr
  if pyIn "ppm" s || pyIn "مليون" s then
    match firstToken? s with
    | none => ⟨"جيد", "أ", "#20c997", "#d1ecf1"⟩
    | some tok =>
      match pyFloat tok with
      | Except.error _ => ⟨"جيد", "أ", "#20c997", "#d1ecf1"⟩
      | Except.ok none => ⟨"يحتاج تحسين", "ج", "#dc3545", "#f8d7da"⟩
      | Except.ok (some v) =>
        if v < 600 then ⟨"ممتاز", "أ+", "#28a745", "#d4edda"⟩
        else if v < 800 then ⟨"جيد", "أ", "#20c997", "#d1ecf1"⟩
        else if v < 1000 then ⟨"مرضي", "ب", "#ffc107", "#fff3cd"⟩
        else ⟨"يحتاج تحسين", "ج", "#dc3545", "#f8d7da"⟩
  else ⟨"جيد", "أ", "#20c997", "#d1ecf1"⟩

/-- One environmental-metric table row of the sustainability report. -/
def sustMetricRow (label : String) (v : PyVal) : String :=
  "<tr><td>" ++ label ++ "</td><td>" ++ v.pyStr ++ "</td></tr>"

/-- `generate_sustainability_report` (frontend, lines 147-282): the
Arabic HTML sustainability report with the rating badge. -/
def generate_sustainability_report (data : PyVal) (now : String) : String :=
  let co2_level := (data.get "مستويات_ثاني_أكسيد_الكربون").getD ((data.get "co2_levels").getD (PyVal.str ""))
  let temp_avg := (data.get "متوسط_درجة_الحرارة").getD ((data.get "temperature_avg").getD (PyVal.str ""))
  let humidity_avg := (data.get "متوسط_الرطوبة").getD ((data.get "humidity_avg").getD (PyVal.str ""))
  let light_avg := (data.get "متوسط_الإضاءة").getD ((data.get "light_avg").getD (PyVal.str ""))
  let pir_activity := (data.get "نشاط_الحركة").getD ((data.get "pir_activity").getD (PyVal.str ""))
  let total_records := (data.get "عدد_القراءات").getD ((data.get "total_records").getD (PyVal.str ""))
  let recommendations := (data.get "التوصيات").getD ((data.get "recommendations").getD (PyVal.list []))
  let ri := sustainabilityRating co2_level
  let report := "<div dir=rtl><div>♻️ مبنى ٤١٣ - الاستدامة | تقييم الأداء البيئي</div><div>📋 تفاصيل التقرير | تاريخ الإنشاء: <strong>" ++ now ++
    "</strong><br>رقم المبنى: <strong>٤١٣</strong><br>نوع التقييم: <strong>تحليل الاستدامة البيئية</strong>"
  let report :=
    if total_records.truthy then
      report ++ "<br>عدد القراءات: <strong>" ++ total_records.pyStr ++ "</strong>"
    else report
  let report := report ++ "</div></div><div>📊 الملخص التنفيذي: يقيّم هذا التقييم الاستدامة الأداء البيئي للمبنى ٤١٣.</div>"
  let report :=
    if co2_level.truthy || temp_avg.truthy || humidity_avg.truthy then
      report ++ "<div>🌿 مؤشرات الجودة البيئية<table>" ++
        (if co2_level.truthy then sustMetricRow "💨 مستويات ثاني أكسيد الكربون:" co2_level else "") ++
        (if temp_avg.truthy then sustMetricRow "🌡️ متوسط درجة الحرارة:" temp_avg else "") ++
        (if humidity_avg.truthy then sustMetricRow "💧 متوسط الرطوبة:" humidity_avg else "") ++
        (if light_avg.truthy then sustMetricRow "💡 متوسط الإضاءة:" light_avg else "") ++
        (if pir_activity.truthy then sustMetricRow "👥 نشاط الحركة:" pir_activity else "") ++
        "</table></div>"
    else report
  let report :=
    if recommendations.truthy then
      report ++ "<div>💡 التوصيات القابلة للتنفيذ<ol>" ++
        String.join ((pyListD (some recommendations)).map
          (fun r => "<li>" ++ r.pyStr ++ "</li>\n")) ++ "</ol></div>"
    else report
  report ++ "<div style=" ++ ri.bg_color ++ "," ++ ri.color ++
    ">🏆 تصنيف الاستدامة: " ++ ri.grade ++ " | " ++ ri.rating ++
    " | حالة الامتثال: يستوفي المعايير</div><div>📝 الخلاصة: يُظهر المبنى ٤١٣ أداءً بيئياً <strong>" ++
    ri.rating ++ "</strong>.</div></div>"

/-- `generate_impact_report` (lines 284-475): the Arabic HTML
environmental-impact report, carbon or water variant. -/
def generate_impact_report (data : PyVal) (metric_type : String) (now : String) : String :=
  let recommendations := (data.get "التوصيات").getD ((data.get "recommendations").getD (PyVal.list []))
  let total_records := (data.get "عدد_القراءات").getD ((data.get "total_records").getD (PyVal.str ""))
  let impact_title := if metric_type = "carbon_footprint" then "البصمة الكربونية" else "استخدام المياه"
  let impact_icon := if metric_type = "carbon_footprint" then "🌍" else "💧"
  let report := "<div dir=rtl><div>" ++ impact_icon ++ " مبنى ٤١٣ - " ++ impact_title ++
    " | تقييم التأثير البيئي</div><div>📋 تفاصيل التقرير | تاريخ الإنشاء: <strong>" ++ now ++
    "</strong><br>رقم المبنى: <strong>٤١٣</strong><br>نوع التحليل: <strong>" ++ impact_title ++ "</strong>"
  let report :=
    if total_records.truthy then
      report ++ "<br>عدد القراءات: <strong>" ++ total_records.pyStr ++ "</strong>"
    else report
  let report := report ++ "</div></div><div>📊 الملخص التنفيذي: يحدّد هذا التقييم البيئي تأثير المبنى ٤١٣ من حيث " ++
    impact_title ++ ".</div>"
  let report :=
    if metric_type = "carbon_footprint" then
      let rating := (data.get "تصنيف_الاستدامة").getD ((data.get "sustainability_rating").getD (PyVal.str "ممتاز"))
      let co2_emissions := (data.get "انبعاثات_CO2_المقدرة_كجم").getD ((data.get "estimated_co2_emissions_kg").getD (PyVal.str "غير متوفر"))
      let daily_co2 := (data.get "متوسط_CO2_اليومي_جزء_بالمليون").getD ((data.get "daily_average_co2_ppm").getD (PyVal.str "غير متوفر"))
      let max_co2 := (data.get "الحد_الأقصى_CO2").getD (PyVal.str "")
      let min_co2 := (data.get "الحد_الأدنى_CO2").getD (PyVal.str "")
      let statusWords :=
        if rating.pyStr = "ممتاز" || rating.pyStr = "جيد" || rating.pyStr = "Good" then
          ("#28a745", "منخفض", "يستوفي المعايير البيئية")
        else if rating.pyStr = "يحتاج تحسين" || rating.pyStr = "مقبول" || rating.pyStr = "Needs Improvement" then
          ("#ffc107", "متوسط", "يتطلب تحسين")
        else ("#dc3545", "مرتفع", "يتطلب إجراء فوري")
      report ++ "<div>🌍 ملف انبعاثات الكربون<table><tr><td>انبعاثات CO2 المقدرة:</td><td>" ++
        co2_emissions.pyStr ++ " كجم</td></tr><tr><td>متوسط تركيز CO2 اليومي:</td><td>" ++
        daily_co2.pyStr ++ " جزء/مليون</td></tr>" ++
        (if max_co2.truthy then "<tr><td>الحد الأقصى CO2:</td><td>" ++ max_co2.pyStr ++ " جزء/مليون</td></tr>" else "") ++
        (if min_co2.truthy then "<tr><td>الحد الأدنى CO2:</td><td>" ++ min_co2.pyStr ++ " جزء/مليون</td></tr>" else "") ++
        "<tr><td>تصنيف الاستدامة:</td><td>" ++ rating.pyStr ++ "</td></tr></table></div>" ++
        "<div>📈 تصنيف التأثير البيئي | الحالة: " ++ rating.pyStr ++ " | مستوى التأثير: " ++
        statusWords.2.1 ++ " | الامتثال: " ++ statusWords.2.2 ++ "</div>"
    else
      let daily_usage := (data.get "الاستخدام_اليومي_المقدر_باللتر").getD ((data.get "estimated_daily_usage_liters").getD (PyVal.str "غير متوفر"))
      let humidity_eff := (data.get "كفاءة_الرطوبة").getD ((data.get "humidity_efficiency").getD (PyVal.str "غير متوفر"))
      let occupancy := (data.get "عامل_الإشغال").getD ((data.get "occupancy_factor").getD (PyVal.str "غير متوفر"))
      let avg_humidity := (data.get "متوسط_الرطوبة").getD (PyVal.str "")
      report ++ "<div>💧 ملف استهلاك المياه<table><tr><td>الاستخدام اليومي المقدر:</td><td>" ++
        daily_usage.pyStr ++ " لتر</td></tr><tr><td>تصنيف كفاءة الرطوبة:</td><td>" ++
        humidity_eff.pyStr ++ "</td></tr><tr><td>عامل الإشغال:</td><td>" ++
        occupancy.pyStr ++ " حدث حركة</td></tr>" ++
        (if avg_humidity.truthy then "<tr><td>متوسط الرطوبة:</td><td>" ++ avg_humidity.pyStr ++ "</td></tr>" else "") ++
        "</table></div><div>📊 تقييم إدارة الموارد</div>"
  let report :=
    if recommendations.truthy then
      report ++ "<div>💡 التوصيات الاستراتيجية<ol>" ++
        String.join ((List.enumFrom 1 (pyListD (some recommendations))).map
          (fun p => "<li><strong>إجراء " ++ toString p.1 ++ ":</strong> " ++ p.2.pyStr ++ "</li>\n")) ++
        "</ol></div>"
    else report
  report ++ "<div>✓ الامتثال والشهادات: متوافق مع ISO 14001 | متوافق مع بروتوكول GHG | ثقة عالية (±٥٪)</div><div>📝 الخلاصة</div></div>"

/-- The constant head of the sustainability report, up to the embedded
generation timestamp.  (Spec-side factored form, as for the energy
report.) -/
def sustReportHead : String :=
  "<div dir=rtl><div>♻️ مبنى ٤١٣ - الاستدامة | تقييم الأداء البيئي</div><div>📋 تفاصيل التقرير | تاريخ الإنشاء: <strong>"

/-- The part of the rendered sustainability report after the embedded
generation timestamp: a function of the tool result alone. -/
def sustReportTail (data : PyVal) : String :=
  let co2_level := (data.get "مستويات_ثاني_أكسيد_الكربون").getD ((data.get "co2_levels").getD (PyVal.str ""))
  let temp_avg := (data.get "متوسط_درجة_الحرارة").getD ((data.get "temperature_avg").getD (PyVal.str ""))
  let humidity_avg := (data.get "متوسط_الرطوبة").getD ((data.get "humidity_avg").getD (PyVal.str ""))
  let light_avg := (data.get "متوسط_الإضاءة").getD ((data.get "light_avg").getD (PyVal.str ""))
  let pir_activity := (data.get "نشاط_الحركة").getD ((data.get "pir_activity").getD (PyVal.str ""))
  let total_records := (data.get "عدد_القراءات").getD ((data.get "total_records").getD (PyVal.str ""))
  let recommendations := (data.get "التوصيات").getD ((data.get "recommendations").getD (PyVal.list []))
  let ri := sustainabilityRating co2_level
  let tail := "</strong><br>رقم المبنى: <strong>٤١٣</strong><br>نوع التقييم: <strong>تحليل الاستدامة البيئية</strong>"
  let tail :=
    if total_records.truthy then
      tail ++ "<br>عدد القراءات: <strong>" ++ total_records.pyStr ++ "</strong>"
    else tail
  let tail := tail ++ "</div></div><div>📊 الملخص التنفيذي: يقيّم هذا التقييم الاستدامة الأداء البيئي للمبنى ٤١٣.</div>"
  let tail :=
    if co2_level.truthy || temp_avg.truthy || humidity_avg.truthy then
      tail ++ "<div>🌿 مؤشرات الجودة البيئية<table>" ++
        (if co2_level.truthy then sustMetricRow "💨 مستويات ثاني أكسيد الكربون:" co2_level else "") ++
        (if temp_avg.truthy then sustMetricRow "🌡️ متوسط درجة الحرارة:" temp_avg else "") ++
        (if humidity_avg.truthy then sustMetricRow "💧 متوسط الرطوبة:" humidity_avg else "") ++
        (if light_avg.truthy then sustMetricRow "💡 متوسط الإضاءة:" light_avg else "") ++
        (if pir_activity.truthy then sustMetricRow "👥 نشاط الحركة:" pir_activity else "") ++
        "</table></div>"
    else tail
  let tail :=
    if recommendations.truthy then
      tail ++ "<div>💡 التوصيات القابلة للتنفيذ<ol>" ++
        String.join ((pyListD (some recommendations)).map
          (fun r => "<li>" ++ r.pyStr ++ "</li>\n")) ++ "</ol></div>"
    else tail
  tail ++ "<div style=" ++ ri.bg_color ++ "," ++ ri.color ++
    ">🏆 تصنيف الاستدامة: " ++ ri.grade ++ " | " ++ ri.rating ++
    " | حالة الامتثال: يستوفي المعايير</div><div>📝 الخلاصة: يُظهر المبنى ٤١٣ أداءً بيئياً <strong>" ++
    ri.rating ++ "</strong>.</div></div>"

/-- The head of the impact report, up to the embedded generation
timestamp: fixed given the metric type, independent of the tool result
and of the clock. -/
def impactReportHead (metric_type : String) : String :=
  let impact_title := if metric_type = "carbon_footprint" then "البصمة الكربونية" else "استخدام المياه"
  let impact_icon := if metric_type = "carbon_footprint" then "🌍" else "💧"
  "<div dir=rtl><div>" ++ impact_icon ++ " مبنى ٤١٣ - " ++ impact_title ++
    " | تقييم التأثير البيئي</div><div>📋 تفاصيل التقرير | تاريخ الإنشاء: <strong>"

/-- The part of the rendered impact report after the embedded generation
timestamp: a function of the tool result and metric type alone. -/
def impactReportTail (data : PyVal) (metric_type : String) : String :=
  let recommendations := (data.get "التوصيات").getD ((data.get "recommendations").getD (PyVal.list []))
  let total_records := (data.get "عدد_القراءات").getD ((data.get "total_records").getD (PyVal.str ""))
  let impact_title := if metric_type = "carbon_footprint" then "البصمة الكربونية" else "استخدام المياه"
  let tail := "</strong><br>رقم المبنى: <strong>٤١٣</strong><br>نوع التحليل: <strong>" ++ impact_title ++ "</strong>"
  let tail :=
    if total_records.truthy then
      tail ++ "<br>عدد القراءات: <strong>" ++ total_records.pyStr ++ "</strong>"
    else tail
  let tail := tail ++ "</div></div><div>📊 الملخص التنفيذي: يحدّد هذا التقييم البيئي تأثير المبنى ٤١٣ من حيث " ++
    impact_title ++ ".</div>"
  let tail :=
    if metric_type = "carbon_footprint" then
      let rating := (data.get "تصنيف_الاستدامة").getD ((data.get "sustainability_rating").getD (PyVal.str "ممتاز"))
      let co2_emissions := (data.get "انبعاثات_CO2_المقدرة_كجم").getD ((data.get "estimated_co2_emissions_kg").getD (PyVal.str "غير متوفر"))
      let daily_co2 := (data.get "متوسط_CO2_اليومي_جزء_بالمليون").getD ((data.get "daily_average_co2_ppm").getD (PyVal.str "غير متوفر"))
      let max_co2 := (data.get "الحد_الأقصى_CO2").getD (PyVal.str "")
      let min_co2 := (data.get "الحد_الأدنى_CO2").getD (PyVal.str "")
      let statusWords :=
        if rating.pyStr = "ممتاز" || rating.pyStr = "جيد" || rating.pyStr = "Good" then
          ("#28a745", "منخفض", "يستوفي المعايير البيئية")
        else if rating.pyStr = "يحتاج تحسين" || rating.pyStr = "مقبول" || rating.pyStr = "Needs Improvement" then
          ("#ffc107", "متوسط", "يتطلب تحسين")
        else ("#dc3545", "مرتفع", "يتطلب إجراء فوري")
      tail ++ "<div>🌍 ملف انبعاثات الكربون<table><tr><td>انبعاثات CO2 المقدرة:</td><td>" ++
        co2_emissions.pyStr ++ " كجم</td></tr><tr><td>متوسط تركيز CO2 اليومي:</td><td>" ++
        daily_co2.pyStr ++ " جزء/مليون</td></tr>" ++
        (if max_co2.truthy then "<tr><td>الحد الأقصى CO2:</td><td>" ++ max_co2.pyStr ++ " جزء/مليون</td></tr>" else "") ++
        (if min_co2.truthy then "<tr><td>الحد الأدنى CO2:</td><td>" ++ min_co2.pyStr ++ " جزء/مليون</td></tr>" else "") ++
        "<tr><td>تصنيف الاستدامة:</td><td>" ++ rating.pyStr ++ "</td></tr></table></div>" ++
        "<div>📈 تصنيف التأثير البيئي | الحالة: " ++ rating.pyStr ++ " | مستوى التأثير: " ++
        statusWords.2.1 ++ " | الامتثال: " ++ statusWords.2.2 ++ "</div>"
    else
      let daily_usage := (data.get "الاستخدام_اليومي_المقدر_باللتر").getD ((data.get "estimated_daily_usage_liters").getD (PyVal.str "غير متوفر"))
      let humidity_eff := (data.get "كفاءة_الرطوبة").getD ((data.get "humidity_efficiency").getD (PyVal.str "غير متوفر"))
      let occupancy := (data.get "عامل_الإشغال").getD ((data.get "occupancy_factor").getD (PyVal.str "غير متوفر"))
      let avg_humidity := (data.get "متوسط_الرطوبة").getD (PyVal.str "")
      tail ++ "<div>💧 ملف استهلاك المياه<table><tr><td>الاستخدام اليومي المقدر:</td><td>" ++
        daily_usage.pyStr ++ " لتر</td></tr><tr><td>تصنيف كفاءة الرطوبة:</td><td>" ++
        humidity_eff.pyStr ++ "</td></tr><tr><td>عامل الإشغال:</td><td>" ++
        occupancy.pyStr ++ " حدث حركة</td></tr>" ++
        (if avg_humidity.truthy then "<tr><td>متوسط الرطوبة:</td><td>" ++ avg_humidity.pyStr ++ "</td></tr>" else "") ++
        "</table></div><div>📊 تقييم إدارة الموارد</div>"
  let tail :=
    if recommendations.truthy then
      tail ++ "<div>💡 التوصيات الاستراتيجية<ol>" ++
        String.join ((List.enumFrom 1 (pyListD (some recommendations))).map
          (fun p => "<li><strong>إجراء " ++ toString p.1 ++ ":</strong> " ++ p.2.pyStr ++ "</li>\n")) ++
        "</ol></div>"
    else tail
  tail ++ "<div>✓ الامتثال والشهادات: متوافق مع ISO 14001 | متوافق مع بروتوكول GHG | ثقة عالية (±٥٪)</div><div>📝 الخلاصة</div></div>"

/-! ## The `/chat` handler (`src/frontend/flask_app_simple.py`, lines 504-639)

The handler reads `message`, strips and lowercases it, answers help
queries locally, otherwise routes to a backend tool, formats the parsed
tool output, and falls back to the raw tool output when `eval` or the
formatter raises.  The response body is modelled as `ChatPayload` so that
"the raw tool output string, unchanged" is represented exactly. -/

/-- The body of a `/chat` JSON response: rendered HTML (a report, the
help text or a fixed fallback), or a tool's raw output passed through. -/
inductive ChatPayload : Type where
  | html : String → ChatPayload
  | raw : ToolOut → ChatPayload

/-- A `/chat` response: body, the `source` field, and the HTTP status. -/
structure ChatResponse : Type where
  response : ChatPayload
  source : Option String
  status : ℕ

/-- The static building-information help page (abbreviated). -/
def help_response : String :=
  "<div dir=rtl><div>🏢 معلومات المبنى ٤١٣ | نظام المراقبة البيئية الذكية - شاهين الشارقة</div><div>📋 تفاصيل المبنى</div><div>🔧 أجهزة الاستشعار المتاحة</div><div>💡 جرب هذه الاستفسارات</div><div>✅ جاهز لتحليل البيانات البيئية للمبنى ٤١٣!</div></div>"

/-- The fixed "could not understand" fallback page (abbreviated). -/
def fallback_response : String :=
  "<div dir=rtl>⚠️ لم أتمكن من فهم طلبك<ul><li>إحصائيات الطاقة</li><li>مقاييس الاستدامة</li><li>البصمة الكربونية</li></ul></div>"

/-- The 500 error page of the outer `except` (abbreviated). -/
def chat_error_response : String :=
  "<div dir=rtl>❌ حدث خطأ: عذراً، حدث خطأ أثناء معالجة طلبك. يرجى المحاولة مرة أخرى.</div>"

/-- Dispatch of the matched tool name to the imported backend tool. -/
def callTool (df : DataFrame) : ToolCall → ToolOut
  | ToolCall.energyStats => get_building_energy_stats df
  | ToolCall.sustainabilityMetrics => get_sustainability_metrics df
  | ToolCall.ecoImpact metric_type => analyze_eco_impact df metric_type

/-- The formatter the handler picks for the matched tool. -/
def renderReport (tool : ToolCall) (now : String) (d : PyVal) : String :=
  match tool with
  | ToolCall.energyStats => generate_energy_report d now
  | ToolCall.sustainabilityMetrics => generate_sustainability_report d now
  | ToolCall.ecoImpact metric_type => generate_impact_report d metric_type now

/-- The `/chat` handler over the cached dataset `df` and the current
time `now`; `user_message` is the incoming message after
`.strip().lower()`.  The inner `try` around `eval` and the formatter
keeps the raw tool output on any exception; the tool bodies themselves
never raise (their own `try/except` returns error text), so the outer
500 branch is unreachable in the model. -/
def chat (df : DataFrame) (now : String) (user_message : String) : ChatResponse :=
  if user_message = "" then
    { response := ChatPayload.html "Message is required", source := none, status := 400 }
  else if containsAny user_message help_keywords then
    { response := ChatPayload.html help_response, source := some "local", status := 200 }
  else
    match route user_message with
    | some tool =>
      let result := callTool df tool
      let response :=
        match evalParse result with
        | Except.ok d => ChatPayload.html (renderReport tool now d)
        | Except.error _ => ChatPayload.raw result
      { response := response, source := some "mcp_direct", status := 200 }
    | none =>
      { response := ChatPayload.html fallback_response, source := some "local", status := 200 }

/-! ## Concrete frames for evaluating the model -/

/-- A representative fully-populated reading. -/
def rowFull : Row :=
  { datetime := "2024-10-01 10:00:00", co2 := some 520, humidity := some 45,
    temperature := some 23, light := some 100, pir := some 1, building_id := some 413 }

/-- A reading with the CO2 cell missing. -/
def rowNoCo2 : Row :=
  { datetime := "2024-10-01 10:00:00", co2 := none, humidity := some 45,
    temperature := some 23, light := some 100, pir := some 0, building_id := some 413 }

/-- A reading at humidity 50 % with one motion event. -/
def rowWater : Row :=
  { datetime := "2024-10-01 10:00:00", co2 := some 520, humidity := some 50,
    temperature := some 23, light := some 100, pir := some 1, building_id := some 413 }

/-- A reading with low CO2 (below 400 ppm). -/
def rowLowCo2 : Row :=
  { datetime := "2024-10-01 10:00:00", co2 := some 390, humidity := some 45,
    temperature := some 23, light := some 100, pir := some 1, building_id := some 413 }

/-! ## Helper lemmas -/

lemma isEmpty_false_of_ne_nil {α : Type} {l : List α} (h : l ≠ []) : l.isEmpty = false := by
  cases l with
  | nil => exact absurd rfl h
  | cons a t => rfl

lemma dateFilter_no_bounds (df : DataFrame) : Svc.dateFilter df "" "" = df := by
  simp [Svc.dateFilter]

lemma ne_nil_of_present_ne_nil {f : Row → Option ℚ} {df : DataFrame}
    (h : present (df.map f) ≠ []) : df ≠ [] := by
  intro hdf
  subst hdf
  exact h rfl

lemma present_mem_of {f : Row → Option ℚ} {df : DataFrame} {r : Row} {v : ℚ}
    (hr : r ∈ df) (hv : f r = some v) : v ∈ present (df.map f) := by
  simp only [present, List.mem_filterMap, List.mem_map, id]
  exact ⟨some v, ⟨r, hr, hv⟩, rfl⟩

lemma roundHalfEven_abs (x : ℚ) : |(roundHalfEven x : ℚ) - x| ≤ 1/2 := by
  have h1 : (⌊x⌋ : ℚ) ≤ x := Int.floor_le x
  have h2 : x < ⌊x⌋ + 1 := Int.lt_floor_add_one x
  unfold roundHalfEven
  split_ifs with a b c <;> rw [abs_le] <;> push_cast <;> constructor <;> linarith

lemma pyRound1_err (x : ℚ) : |pyRound 1 x - x| ≤ 1/20 := by
  have h := roundHalfEven_abs (x * 10)
  rw [abs_le] at h ⊢
  unfold pyRound
  rw [pow_one]
  constructor <;> [linarith [h.1]; linarith [h.2]]

lemma band_indicator (x : ℚ) :
    ((if x ≤ 400 then 1 else 0) : ℕ)
      + (if 400 < x ∧ x ≤ 600 then 1 else 0)
      + (if 600 < x ∧ x ≤ 1000 then 1 else 0)
      + (if 1000 < x ∧ x ≤ 1500 then 1 else 0)
      + (if 1500 < x then 1 else 0) = 1 := by
  rcases le_or_lt x 400 with h1 | h1
  · rw [if_pos h1, if_neg (fun hc => absurd hc.1 (not_lt.2 h1)),
      if_neg (fun hc => absurd hc.1 (not_lt.2 (h1.trans (by norm_num)))),
      if_neg (fun hc => absurd hc.1 (not_lt.2 (h1.trans (by norm_num)))),
      if_neg (not_lt.2 (h1.trans (by norm_num)))]
  · rcases le_or_lt x 600 with h2 | h2
    · rw [if_neg (not_le.2 h1), if_pos ⟨h1, h2⟩,
        if_neg (fun hc => absurd hc.1 (not_lt.2 h2)),
        if_neg (fun hc => absurd hc.1 (not_lt.2 (h2.trans (by norm_num)))),
        if_neg (not_lt.2 (h2.trans (by norm_num)))]
    · rcases le_or_lt x 1000 with h3 | h3
      · rw [if_neg (not_le.2 ((by norm_num : (400:ℚ) < 600).trans h2)),
          if_neg (fun hc => absurd h2 (not_lt.2 hc.2)),
          if_pos ⟨h2, h3⟩,
          if_neg (fun hc => absurd hc.1 (not_lt.2 h3)),
          if_neg (not_lt.2 (h3.trans (by norm_num)))]
      · rcases le_or_lt x 1500 with h4 | h4
        · rw [if_neg (not_le.2 ((by norm_num : (400:ℚ) < 1000).trans h3)),
            if_neg (fun hc => absurd h2 (not_lt.2 hc.2)),
            if_neg (fun hc => absurd h3 (not_lt.2 hc.2)),
            if_pos ⟨h3, h4⟩,
            if_neg (not_lt.2 h4)]
        · rw [if_neg (not_le.2 ((by norm_num : (400:ℚ) < 1500).trans h4)),
            if_neg (fun hc => absurd h2 (not_lt.2 hc.2)),
            if_neg (fun hc => absurd h3 (not_lt.2 hc.2)),
            if_neg (fun hc => absurd h4 (not_lt.2 hc.2)),
            if_pos h4]

lemma band_counts_sum (xs : List ℚ) : (Svc.co2BandCounts xs).sum = xs.length := by
  induction xs with
  | nil => rfl
  | cons x t ih =>
    have hx := band_indicator x
    simp only [Svc.co2BandCounts, List.sum_cons, List.sum_nil, Svc.bandExcellent, Svc.bandGood,
      Svc.bandAcceptable, Svc.bandPoor, Svc.bandVeryPoor, ← List.countP_eq_length_filter,
      List.countP_cons, decide_eq_true_eq, List.length_cons] at ih hx ⊢
    omega

lemma band_percents_sum (xs : List ℚ) (h : xs ≠ []) :
    |(Svc.co2BandPercents xs).sum - 100| ≤ 1/2 := by
  have hn : (0:ℚ) < xs.length := by
    exact_mod_cast List.length_pos.2 h
  have hsum : ((Svc.bandExcellent xs : ℚ) + Svc.bandGood xs + Svc.bandAcceptable xs
      + Svc.bandPoor xs + Svc.bandVeryPoor xs) = xs.length := by
    have hc := band_counts_sum xs
    simp only [Svc.co2BandCounts, List.sum_cons, List.sum_nil] at hc
    push_cast [← hc]
    ring
  have h1 := pyRound1_err ((Svc.bandExcellent xs : ℚ) / xs.length * 100)
  have h2 := pyRound1_err ((Svc.bandGood xs : ℚ) / xs.length * 100)
  have h3 := pyRound1_err ((Svc.bandAcceptable xs : ℚ) / xs.length * 100)
  have h4 := pyRound1_err ((Svc.bandPoor xs : ℚ) / xs.length * 100)
  have h5 := pyRound1_err ((Svc.bandVeryPoor xs : ℚ) / xs.length * 100)
  have hexact : (Svc.bandExcellent xs : ℚ) / xs.length * 100
      + (Svc.bandGood xs : ℚ) / xs.length * 100
      + (Svc.bandAcceptable xs : ℚ) / xs.length * 100
      + (Svc.bandPoor xs : ℚ) / xs.length * 100
      + (Svc.bandVeryPoor xs : ℚ) / xs.length * 100 = 100 := by
    field_simp
    linarith [hsum]
  rw [abs_le] at h1 h2 h3 h4 h5 ⊢
  simp only [Svc.co2BandPercents, Svc.co2BandCounts, Svc.bandPct, List.map_cons, List.map_nil,
    List.sum_cons, List.sum_nil]
  constructor <;> linarith

lemma energy_columns_empty : energy_columns = [] := by decide

lemma fallback_ne_nil (l : List String) (m : String) : (if l = [] then [m] else l) ≠ [] := by
  split
  · simp
  · next h => exact h

lemma filterMap_id_replicate (n : ℕ) (a : ℚ) :
    (List.replicate n (some a)).filterMap id = List.replicate n a := by
  induction n with
  | zero => rfl
  | succ k ih => simp [List.replicate_succ, ih]

/-! ## The claims -/

/-- C1: for every user message that (lowercased) contains no help/list
keyword, the keyword router checks the fixed keyword groups in the order
energy/stats, sustainability, carbon, water, generic environmental, and
selects the tool of the first group containing a substring of the
message; in particular "what's the carbon footprint" routes to the
eco-impact tool with `metric_type=carbon_footprint`, and the Arabic query
"حالة الرطوبة" routes to the energy-stats tool via the generic
environmental group. -/
theorem router_first_match_priority (m : String)
    (hhelp : containsAny m help_keywords = false) :
    route m = firstMatch m routerGroups
    ∧ route "what's the carbon footprint" = some (ToolCall.ecoImpact "carbon_footprint")
    ∧ route "حالة الرطوبة" = some ToolCall.energyStats :=
  ⟨rfl, by decide, by decide⟩

/-- Witness for C1 at the concrete non-help message "co2 levels". -/
theorem router_first_match_priority_witness :
    containsAny "co2 levels" help_keywords = false
    ∧ (route "co2 levels" = firstMatch "co2 levels" routerGroups
       ∧ route "what's the carbon footprint" = some (ToolCall.ecoImpact "carbon_footprint")
       ∧ route "حالة الرطوبة" = some ToolCall.energyStats) :=
  ⟨by decide, router_first_match_priority "co2 levels" (by decide)⟩

/-- C2, counterexample: the mcp-service report generator propagates a
raised exception to its caller.  On a one-row dataset whose CO2 cell is
missing, `analyze_co2_levels` returns a plain textual message, and
`generate_sustainability_report`'s unguarded `json.loads` of it raises
`JSONDecodeError`, which escapes the tool. -/
theorem svc_report_raises_on_missing_co2 :
    Svc.generate_sustainability_report [rowNoCo2] "2024-01-01T00:00:00" "comprehensive"
      = Except.error () := rfl

/-- C2, amended: the backend tools (`src/backend/mcp_server.py`) wrap
their bodies in `try/except` and always answer with text, but the
mcp-service tools have no such wrapper: whenever the dataset is non-empty
with every CO2 reading missing, the `json.loads` re-parse inside
`generate_sustainability_report` raises and the exception propagates to
the caller. -/
theorem svc_report_exception_propagation (df : DataFrame) (now report_type : String)
    (hdf : df ≠ []) (hco2 : ∀ r ∈ df, r.co2 = none) :
    jsonLoads (Svc.analyze_co2_levels df "" "") = Except.error ()
    ∧ Svc.generate_sustainability_report df now report_type = Except.error () := by
  have hdf' : df.isEmpty = false := isEmpty_false_of_ne_nil hdf
  have hpres : present (df.map Row.co2) = [] := by
    rw [present, List.filterMap_eq_nil_iff]
    intro a ha
    obtain ⟨r, hr, rfl⟩ := List.mem_map.mp ha
    exact hco2 r hr
  have htool : Svc.analyze_co2_levels df "" ""
      = ToolOut.text "No CO2 data available for the specified period" := by
    simp [Svc.analyze_co2_levels, hdf', dateFilter_no_bounds, hpres]
  refine ⟨by rw [htool]; rfl, ?_⟩
  simp only [Svc.generate_sustainability_report, hdf', Bool.false_eq_true, if_false, htool]
  rfl

/-- Witness for C2 at the concrete one-row frame with a missing CO2
cell. -/
theorem svc_report_exception_propagation_witness :
    (([rowNoCo2] : DataFrame) ≠ [] ∧ ∀ r ∈ ([rowNoCo2] : DataFrame), r.co2 = none)
    ∧ (jsonLoads (Svc.analyze_co2_levels [rowNoCo2] "" "") = Except.error ()
       ∧ Svc.generate_sustainability_report [rowNoCo2] "2024-01-01T00:00:00" "comprehensive"
          = Except.error ()) :=
  ⟨⟨List.cons_ne_nil _ _, by decide⟩,
   svc_report_exception_propagation [rowNoCo2] "2024-01-01T00:00:00" "comprehensive"
     (List.cons_ne_nil _ _) (by decide)⟩

/-- C3, counterexample: on an empty view the backend energy-stats tool
reports NaN, not an explicit "not available" marker, for its numeric
statistics (the pandas mean of an empty column is NaN and is serialized
as such). -/
theorem energy_stats_empty_view_is_nan :
    (get_building_energy_stats []).get3 "إحصائيات_استهلاك_الطاقة" "المتوسط" "ثاني أكسيد الكربون"
      = some PyVal.nan := rfl

/-- C3, amended: for an empty view no exception escapes any tool, and the
mcp-service tools do return explicit textual "No … available" markers
(`analyze_co2_levels` also for a non-empty dataset whose date filter
leaves zero rows); but the backend `get_building_energy_stats` returns
NaN statistics (with record count `0`), not "not available" markers. -/
theorem empty_view_no_data_markers (df : DataFrame) (s e : String)
    (hdf : df ≠ []) (hfilter : Svc.dateFilter df s e = []) :
    Svc.analyze_co2_levels df s e = ToolOut.text "No CO2 data available for the specified period"
    ∧ Svc.get_data_summary [] = ToolOut.text "No data available"
    ∧ Svc.analyze_occupancy_patterns [] = ToolOut.text "No data available"
    ∧ Svc.get_environmental_comfort_analysis [] = ToolOut.text "No data available"
    ∧ (get_building_energy_stats []).get3 "إحصائيات_استهلاك_الطاقة" "المتوسط" "ثاني أكسيد الكربون"
        = some PyVal.nan
    ∧ (get_building_energy_stats []).get1 "إجمالي_القراءات" = some (PyVal.num 0) := by
  refine ⟨?_, rfl, rfl, rfl, rfl, rfl⟩
  simp [Svc.analyze_co2_levels, isEmpty_false_of_ne_nil hdf, hfilter, present]

/-- Witness for C3 at a one-row frame filtered by a start date past the
data. -/
theorem empty_view_no_data_markers_witness :
    (([rowFull] : DataFrame) ≠ [] ∧ Svc.dateFilter [rowFull] "9999-01-01" "" = [])
    ∧ (Svc.analyze_co2_levels [rowFull] "9999-01-01" ""
        = ToolOut.text "No CO2 data available for the specified period"
      ∧ Svc.get_data_summary [] = ToolOut.text "No data available"
      ∧ Svc.analyze_occupancy_patterns [] = ToolOut.text "No data available"
      ∧ Svc.get_environmental_comfort_analysis [] = ToolOut.text "No data available"
      ∧ (get_building_energy_stats []).get3 "إحصائيات_استهلاك_الطاقة" "المتوسط" "ثاني أكسيد الكربون"
          = some PyVal.nan
      ∧ (get_building_energy_stats []).get1 "إجمالي_القراءات" = some (PyVal.num 0)) :=
  ⟨⟨List.cons_ne_nil _ _, rfl⟩,
   empty_view_no_data_markers [rowFull] "9999-01-01" "" (List.cons_ne_nil _ _) rfl⟩

/-- C4: for every view with at least one non-missing CO2 reading, the CO2
analysis reports `energy_efficiency_score = max(0, 100 - (mean - 400)/10)`;
the score is never negative and is not capped above 100 — it exceeds 100
whenever the mean CO2 lies below 400 ppm. -/
theorem co2_efficiency_score_spec (df : DataFrame)
    (h : present (df.map Row.co2) ≠ []) :
    (Svc.analyze_co2_levels df "" "").get2 "sustainability_insights" "energy_efficiency_score"
      = some (PyVal.num (Svc.co2EfficiencyScore (Svc.listMean (present (df.map Row.co2)))))
    ∧ Svc.co2EfficiencyScore (Svc.listMean (present (df.map Row.co2)))
        = max 0 (100 - (Svc.listMean (present (df.map Row.co2)) - 400) / 10)
    ∧ 0 ≤ Svc.co2EfficiencyScore (Svc.listMean (present (df.map Row.co2)))
    ∧ (Svc.listMean (present (df.map Row.co2)) < 400 →
        100 < Svc.co2EfficiencyScore (Svc.listMean (present (df.map Row.co2)))) := by
  have hdf : df.isEmpty = false := isEmpty_false_of_ne_nil (ne_nil_of_present_ne_nil h)
  have hco2 : (present (df.map Row.co2)).isEmpty = false := isEmpty_false_of_ne_nil h
  refine ⟨?_, rfl, le_max_left 0 _, ?_⟩
  · simp only [Svc.analyze_co2_levels, hdf, dateFilter_no_bounds, hco2, Bool.false_eq_true,
      if_false, ToolOut.get2, ToolOut.get1, PyVal.get, List.lookup]
    rfl
  · intro hm
    rw [Svc.co2EfficiencyScore, max_eq_right (by linarith)]
    linarith

/-- Witness for C4 at a one-row frame whose CO2 reading is 390 ppm. -/
theorem co2_efficiency_score_spec_witness :
    present ([rowLowCo2].map Row.co2) ≠ []
    ∧ ((Svc.analyze_co2_levels [rowLowCo2] "" "").get2 "sustainability_insights" "energy_efficiency_score"
        = some (PyVal.num (Svc.co2EfficiencyScore (Svc.listMean (present ([rowLowCo2].map Row.co2)))))
      ∧ Svc.co2EfficiencyScore (Svc.listMean (present ([rowLowCo2].map Row.co2)))
          = max 0 (100 - (Svc.listMean (present ([rowLowCo2].map Row.co2)) - 400) / 10)
      ∧ 0 ≤ Svc.co2EfficiencyScore (Svc.listMean (present ([rowLowCo2].map Row.co2)))
      ∧ (Svc.listMean (present ([rowLowCo2].map Row.co2)) < 400 →
          100 < Svc.co2EfficiencyScore (Svc.listMean (present ([rowLowCo2].map Row.co2))))) :=
  ⟨by decide, co2_efficiency_score_spec [rowLowCo2] (by decide)⟩

/-- C5: for every view with at least one non-missing CO2 reading, the
five fixed ppm bands partition the readings (the five counts sum to the
number of readings), and the five reported percentages, each rounded to
one decimal, sum to 100.0 within 0.1 per band (0.5 total). -/
theorem co2_band_partition_percentages (df : DataFrame)
    (h : present (df.map Row.co2) ≠ []) :
    (Svc.co2BandCounts (present (df.map Row.co2))).sum = (present (df.map Row.co2)).length
    ∧ |(Svc.co2BandPercents (present (df.map Row.co2))).sum - 100| ≤ 1/2 :=
  ⟨band_counts_sum _, band_percents_sum _ h⟩

/-- Witness for C5 at a one-row frame with a 520 ppm reading. -/
theorem co2_band_partition_percentages_witness :
    present ([rowFull].map Row.co2) ≠ []
    ∧ ((Svc.co2BandCounts (present ([rowFull].map Row.co2))).sum
        = (present ([rowFull].map Row.co2)).length
      ∧ |(Svc.co2BandPercents (present ([rowFull].map Row.co2))).sum - 100| ≤ 1/2) :=
  ⟨by decide, co2_band_partition_percentages [rowFull] (by decide)⟩

/-- C6: whenever at least one row has both temperature and humidity
present, the comfort analysis reports
`energy_efficiency_score = min(100, joint_percentage + 20)`, the score
lies in `[0, 100]`, and it is 100 (not 120) at a joint percentage of
100. -/
theorem comfort_score_capped_spec (df : DataFrame)
    (h : ∃ r ∈ df, r.temperature.isSome ∧ r.humidity.isSome) :
    (Svc.get_environmental_comfort_analysis df).get2 "comfort_insights" "energy_efficiency_score"
      = some (PyVal.num (Svc.comfortScore df))
    ∧ Svc.comfortScore df = min 100 (Svc.jointPercentage df + 20)
    ∧ 0 ≤ Svc.comfortScore df
    ∧ Svc.comfortScore df ≤ 100
    ∧ (Svc.jointPercentage df = 100 → Svc.comfortScore df = 100) := by
  obtain ⟨r, hr, ht, hh⟩ := h
  obtain ⟨t, ht'⟩ := Option.isSome_iff_exists.mp ht
  obtain ⟨w, hh'⟩ := Option.isSome_iff_exists.mp hh
  have hdf : df.isEmpty = false := isEmpty_false_of_ne_nil (List.ne_nil_of_mem hr)
  have htemp : (present (df.map Row.temperature)).isEmpty = false :=
    isEmpty_false_of_ne_nil (List.ne_nil_of_mem (present_mem_of hr ht'))
  have hhum : (present (df.map Row.humidity)).isEmpty = false :=
    isEmpty_false_of_ne_nil (List.ne_nil_of_mem (present_mem_of hr hh'))
  have hcomb : (Svc.combinedRows df).isEmpty = false := by
    refine isEmpty_false_of_ne_nil (List.ne_nil_of_mem (a := r) ?_)
    simp only [Svc.combinedRows, List.mem_filter]
    exact ⟨hr, by simp [ht', hh']⟩
  have hjp : 0 ≤ Svc.jointPercentage df := by
    unfold Svc.jointPercentage
    positivity
  refine ⟨?_, rfl, le_min (by norm_num) (by linarith), min_le_left _ _, ?_⟩
  · simp only [Svc.get_environmental_comfort_analysis, hdf, htemp, hhum, hcomb,
      Bool.false_and, Bool.and_false, Bool.false_eq_true, if_false, Bool.not_false,
      Bool.and_self, Bool.not_true, if_true, ToolOut.get2, ToolOut.get1, PyVal.get,
      List.lookup]
    rfl
  · intro hj
    rw [Svc.comfortScore, hj]
    norm_num

/-- Witness for C6 at a one-row frame with temperature 23 °C and
humidity 50 %. -/
theorem comfort_score_capped_spec_witness :
    (∃ r ∈ ([rowWater] : DataFrame), r.temperature.isSome ∧ r.humidity.isSome)
    ∧ ((Svc.get_environmental_comfort_analysis [rowWater]).get2 "comfort_insights" "energy_efficiency_score"
        = some (PyVal.num (Svc.comfortScore [rowWater]))
      ∧ Svc.comfortScore [rowWater] = min 100 (Svc.jointPercentage [rowWater] + 20)
      ∧ 0 ≤ Svc.comfortScore [rowWater]
      ∧ Svc.comfortScore [rowWater] ≤ 100
      ∧ (Svc.jointPercentage [rowWater] = 100 → Svc.comfortScore [rowWater] = 100)) :=
  ⟨⟨rowWater, by simp, by decide⟩,
   comfort_score_capped_spec [rowWater] ⟨rowWater, by simp, by decide⟩⟩

/-- C7: with the humidity and pir columns populated, the eco-impact tool
estimates water usage as `(avg_humidity / 50) * total_motion_events * 10`
liters (reported rounded to two decimals), classifies humidity efficiency
as "جيد" (good) exactly when the average humidity lies in `[40, 60]`, and
a frame with average humidity 50 and 100 motion events yields exactly
1000.0 liters. -/
theorem eco_impact_water_usage_spec (df : DataFrame) (avg : ℚ)
    (h : colMean (df.map Row.humidity) = some avg) :
    (analyze_eco_impact df "water_usage").get1 "الاستخدام_اليومي_المقدر_باللتر"
      = some (PyVal.num (pyRound 2 (avg / 50 * colSum (df.map Row.pir) * 10)))
    ∧ ((analyze_eco_impact df "water_usage").get1 "كفاءة_الرطوبة" = some (PyVal.str "جيد")
        ↔ 40 ≤ avg ∧ avg ≤ 60)
    ∧ (analyze_eco_impact (List.replicate 100 rowWater) "water_usage").get1
        "الاستخدام_اليومي_المقدر_باللتر" = some (PyVal.num 1000) := by
  have hliters : ∀ d : DataFrame, (analyze_eco_impact d "water_usage").get1 "الاستخدام_اليومي_المقدر_باللتر"
      = some (numOrNan (Option.map (pyRound 2)
          (Option.map (fun hu => hu / 50 * colSum (d.map Row.pir) * 10)
            (colMean (d.map Row.humidity))))) := fun d => rfl
  have heff : (analyze_eco_impact df "water_usage").get1 "كفاءة_الرطوبة"
      = some (PyVal.str (if optBetween 40 (colMean (df.map Row.humidity)) 60
          then "جيد" else "يحتاج تحسين")) := rfl
  refine ⟨?_, ?_, ?_⟩
  · rw [hliters df, h]
    rfl
  · rw [heff, h]
    by_cases hin : 40 ≤ avg ∧ avg ≤ 60
    · simp [optBetween, hin]
    · simp [optBetween, hin]
  · have hmean : colMean ((List.replicate 100 rowWater).map Row.humidity) = some 50 := by
      rw [List.map_replicate]
      show colMean (List.replicate 100 (some 50)) = some 50
      rw [colMean, present, filterMap_id_replicate]
      simp [List.sum_replicate]
      norm_num
    have hsum : colSum ((List.replicate 100 rowWater).map Row.pir) = 100 := by
      rw [List.map_replicate]
      show colSum (List.replicate 100 (some 1)) = 100
      rw [colSum, present, filterMap_id_replicate, List.sum_replicate, nsmul_eq_mul]
      norm_num
    rw [hliters (List.replicate 100 rowWater), hmean]
    simp only [hsum, Option.map_some']
    have : pyRound 2 ((50:ℚ) / 50 * 100 * 10) = 1000 := by
      norm_num [pyRound, roundHalfEven]
    rw [numOrNan, this]

/-- Witness for C7 at a one-row frame with humidity 50 %. -/
theorem eco_impact_water_usage_spec_witness :
    colMean ([rowWater].map Row.humidity) = some 50
    ∧ ((analyze_eco_impact [rowWater] "water_usage").get1 "الاستخدام_اليومي_المقدر_باللتر"
        = some (PyVal.num (pyRound 2 (50 / 50 * colSum ([rowWater].map Row.pir) * 10)))
      ∧ ((analyze_eco_impact [rowWater] "water_usage").get1 "كفاءة_الرطوبة" = some (PyVal.str "جيد")
          ↔ 40 ≤ (50:ℚ) ∧ (50:ℚ) ≤ 60)
      ∧ (analyze_eco_impact (List.replicate 100 rowWater) "water_usage").get1
          "الاستخدام_اليومي_المقدر_باللتر" = some (PyVal.num 1000)) :=
  ⟨by simp [colMean, present, rowWater],
   eco_impact_water_usage_spec [rowWater] 50 (by simp [colMean, present, rowWater])⟩

/-- C8, counterexample: the energy-stats tool result contains no
`recommendations` list at all (neither the Arabic nor the English key),
refuting "every tool result includes a recommendations list". -/
theorem energy_stats_lacks_recommendations :
    (get_building_energy_stats [rowFull]).get1 "التوصيات" = none
    ∧ (get_building_energy_stats [rowFull]).get1 "recommendations" = none :=
  ⟨rfl, rfl⟩

/-- C8, amended: the sustainability-metrics and eco-impact
(carbon/water) tools always include a non-empty recommendations list,
falling back to a nominal message when no threshold fires; but
`get_building_energy_stats` returns no recommendations field at all. -/
theorem tool_recommendations_nonempty (df : DataFrame) :
    ((get_sustainability_metrics df).get1 "التوصيات"
        = some (PyVal.list ((sustainabilityRecs df).map PyVal.str))
      ∧ sustainabilityRecs df ≠ [])
    ∧ ((analyze_eco_impact df "carbon_footprint").get1 "التوصيات"
        = some (PyVal.list ((ecoCarbonRecs (colMean (df.map Row.co2))).map PyVal.str))
      ∧ ecoCarbonRecs (colMean (df.map Row.co2)) ≠ [])
    ∧ ((analyze_eco_impact df "water_usage").get1 "التوصيات"
        = some (PyVal.list ((ecoWaterRecs (colMean (df.map Row.humidity))).map PyVal.str))
      ∧ ecoWaterRecs (colMean (df.map Row.humidity)) ≠ [])
    ∧ (get_building_energy_stats df).get1 "التوصيات" = none
    ∧ (get_building_energy_stats df).get1 "recommendations" = none := by
  refine ⟨⟨rfl, ?_⟩, ⟨rfl, ?_⟩, ⟨rfl, ?_⟩, rfl, rfl⟩
  · simp only [sustainabilityRecs]
    exact fallback_ne_nil _ _
  · unfold ecoCarbonRecs
    split
    · simp
    · split <;> simp
  · unfold ecoWaterRecs
    split
    · simp
    · split <;> simp

/-- C9, counterexample: the report formatter is not a function of the
tool result alone — two invocations on the same (empty-dict) tool result
at different clock times render different reports, because the current
time is embedded as the creation date. -/
theorem energy_report_time_dependent :
    generate_energy_report (PyVal.dict []) "2024-01-01 00:00:00"
      ≠ generate_energy_report (PyVal.dict []) "2024-01-02 00:00:00" := by decide

/-- C9, amended: each report formatter — energy, sustainability and
impact — is a pure deterministic function of the tool result and of the
generation timestamp; every rendered report factors as a fixed prefix
(fixed given the metric type), the timestamp, and a remainder depending
only on the tool result, so renders of equal tool results differ exactly
in the embedded creation time (no other randomness or external state). -/
theorem report_formatters_factor_through_timestamp (data : PyVal) (metric_type now : String) :
    generate_energy_report data now = energyHeader1 ++ now ++ energyReportTail data
    ∧ generate_sustainability_report data now = sustReportHead ++ now ++ sustReportTail data
    ∧ generate_impact_report data metric_type now
        = impactReportHead metric_type ++ now ++ impactReportTail data metric_type := by
  refine ⟨?_, ?_, ?_⟩
  · unfold generate_energy_report energyReportTail
    by_cases hdp : (((data.get "فترة_البيانات").getD (PyVal.dict []))).truthy <;>
      by_cases hen : (((data.get "إحصائيات_استهلاك_الطاقة").getD
          ((data.get "energy_consumption").getD (PyVal.dict [])))).truthy <;>
      simp only [hdp, hen, if_true, if_false, Bool.false_eq_true, String.append_assoc]
  · unfold generate_sustainability_report sustReportTail sustReportHead
    by_cases htr : (((data.get "عدد_القراءات").getD ((data.get "total_records").getD (PyVal.str "")))).truthy <;>
      by_cases hm : ((((data.get "مستويات_ثاني_أكسيد_الكربون").getD ((data.get "co2_levels").getD (PyVal.str "")))).truthy
          || (((data.get "متوسط_درجة_الحرارة").getD ((data.get "temperature_avg").getD (PyVal.str "")))).truthy
          || (((data.get "متوسط_الرطوبة").getD ((data.get "humidity_avg").getD (PyVal.str "")))).truthy) = true <;>
      by_cases hrec : (((data.get "التوصيات").getD ((data.get "recommendations").getD (PyVal.list [])))).truthy <;>
      simp only [htr, hm, hrec, if_true, if_false, Bool.false_eq_true, Bool.or_eq_true,
        String.append_assoc]
  · unfold generate_impact_report impactReportTail impactReportHead
    by_cases hmt : metric_type = "carbon_footprint" <;>
      by_cases htr : (((data.get "عدد_القراءات").getD ((data.get "total_records").getD (PyVal.str "")))).truthy <;>
      by_cases hrec : (((data.get "التوصيات").getD ((data.get "recommendations").getD (PyVal.list [])))).truthy <;>
      simp only [hmt, htr, hrec, if_true, if_false, Bool.false_eq_true, eq_self_iff_true,
        String.append_assoc]

/-- C10: for every message the keyword router matches to a tool, `/chat`
responds with HTTP 200 and source `mcp_direct`; the body is the formatted
report when `eval` of the tool output (and formatting) succeeds, and the
raw unformatted tool output unchanged when the parse raises; no
formatting exception escapes to the client. -/
theorem chat_tool_path_spec (df : DataFrame) (now msg : String) (tool : ToolCall)
    (hne : msg ≠ "") (hhelp : containsAny msg help_keywords = false)
    (hroute : route msg = some tool) :
    (chat df now msg).status = 200
    ∧ (chat df now msg).source = some "mcp_direct"
    ∧ (∀ d, evalParse (callTool df tool) = Except.ok d →
        (chat df now msg).response = ChatPayload.html (renderReport tool now d))
    ∧ (∀ e, evalParse (callTool df tool) = Except.error e →
        (chat df now msg).response = ChatPayload.raw (callTool df tool)) := by
  have hchat : chat df now msg =
      { response :=
          match evalParse (callTool df tool) with
          | Except.ok d => ChatPayload.html (renderReport tool now d)
          | Except.error _ => ChatPayload.raw (callTool df tool)
        source := some "mcp_direct"
        status := 200 } := by
    unfold chat
    rw [if_neg hne, hhelp]
    simp only [Bool.false_eq_true, if_false, hroute]
  refine ⟨by rw [hchat], by rw [hchat], ?_, ?_⟩
  · intro d hd
    rw [hchat]
    simp [hd]
  · intro e he
    rw [hchat]
    simp [he]

/-- Witness for C10 at the message "energy" over the empty frame. -/
theorem chat_tool_path_spec_witness :
    (("energy" : String) ≠ "" ∧ containsAny "energy" help_keywords = false
      ∧ route "energy" = some ToolCall.energyStats)
    ∧ ((chat [] "2024-01-01 00:00:00" "energy").status = 200
      ∧ (chat [] "2024-01-01 00:00:00" "energy").source = some "mcp_direct"
      ∧ (∀ d, evalParse (callTool [] ToolCall.energyStats) = Except.ok d →
          (chat [] "2024-01-01 00:00:00" "energy").response
            = ChatPayload.html (renderReport ToolCall.energyStats "2024-01-01 00:00:00" d))
      ∧ (∀ e, evalParse (callTool [] ToolCall.energyStats) = Except.error e →
          (chat [] "2024-01-01 00:00:00" "energy").response
            = ChatPayload.raw (callTool [] ToolCall.energyStats))) :=
  ⟨⟨by decide, by decide, by decide⟩,
   chat_tool_path_spec [] "2024-01-01 00:00:00" "energy" ToolCall.energyStats
     (by decide) (by decide) (by decide)⟩

end EcoReport
